import Mathlib

/-!
Shallow embedding of the per-frame animation state-blending engine implemented in
Source/ALS/Private/AlsAnimationInstance.cpp (class UAlsAnimationInstance).

Conventions used throughout:

* Machine floats are modelled by exact rationals. Division by zero follows Lean's
  convention x / 0 = 0; every place where the source can actually divide by zero
  is noted next to the corresponding definition.
* Engine math helpers (FMath::Clamp, FMath::FInterpTo, FMath::GetMappedRangeValueClamped,
  FRotator3f::NormalizeAxis, FAnimWeight::IsRelevant / IsFullWeight) are translated from
  their well-known Unreal Engine semantics, since the engine is an external collaborator
  of this repository.
* Transcendental smoothing helpers of the repository (UAlsMath::ExponentialDecay,
  UAlsMath::SpringDamp, quaternion interpolation) cannot be expressed exactly over the
  rationals; they are passed into the refresh functions as explicit function parameters.
  No claim below depends on their values: they only occur in branches the claims do not
  constrain, or their results flow into fields the claims do not read.
* Quaternion-valued fields (lock rotations, offset rotations) are omitted from the
  embedded state: no claim reads a rotation and no rotation value ever flows back into
  a scalar or location field of the source.
-/

namespace AlsAnim

/-- SMALL_NUMBER from the engine (1.0e-8). -/
def smallNumber : ℚ := 1 / 100000000

/-- KINDA_SMALL_NUMBER from the engine (1.0e-4). -/
def kindaSmallNumber : ℚ := 1 / 10000

/-- ZERO_ANIMWEIGHT_THRESH from the engine (0.00001). -/
def zeroAnimWeightThreshold : ℚ := 1 / 100000

/-- FAnimWeight::IsRelevant: the weight is above the zero-animation-weight threshold. -/
def weightIsRelevant (w : ℚ) : Prop := zeroAnimWeightThreshold < w

instance (w : ℚ) : Decidable (weightIsRelevant w) := by
  unfold weightIsRelevant; infer_instance

/-- FAnimWeight::IsFullWeight: the weight is at least 1 minus the zero-weight threshold. -/
def weightIsFullWeight (w : ℚ) : Prop := 1 - zeroAnimWeightThreshold ≤ w

instance (w : ℚ) : Decidable (weightIsFullWeight w) := by
  unfold weightIsFullWeight; infer_instance

/-- FMath::Clamp. -/
def clamp (x lo hi : ℚ) : ℚ := if x < lo then lo else if x > hi then hi else x

/-- Modelled from the spec: UAlsMath::Clamp01 (the repository's math utility header is not
part of the given sources); per the spec's math-utilities section it clamps to [0, 1]. -/
def clamp01 (x : ℚ) : ℚ := clamp x 0 1

/-- UAlsAnimationInstance::GetCurveValueClamped01 (lines 1612-1615): the raw curve value
clamped to [0, 1]. The raw curve value itself is an input here. -/
def getCurveValueClamped01 (curveValue : ℚ) : ℚ := clamp01 curveValue

/-- FMath::Lerp. -/
def lerp (a b t : ℚ) : ℚ := a + t * (b - a)

/-- FMath::GetMappedRangeValueClamped: maps the input range to the output range with the
interpolation fraction clamped to [0, 1]. -/
def mappedRangeClamped (inMin inMax outMin outMax x : ℚ) : ℚ :=
  lerp outMin outMax (clamp01 ((x - inMin) / (inMax - inMin)))

/-- FMath::FInterpTo: move `current` toward `target` by `dt * speed` of the distance,
snapping when the speed is non-positive or the remaining squared distance is tiny. -/
def finterpTo (current target dt speed : ℚ) : ℚ :=
  if speed ≤ 0 then target
  else
    let dist := target - current
    if dist ^ 2 < smallNumber then target
    else current + dist * clamp (dt * speed) 0 1

/-- FMath::RoundToFloat-free angle wrap onto [0, 360): FRotator::ClampAxis. -/
def clampAxis (angle : ℚ) : ℚ := angle - 360 * (⌊angle / 360⌋ : ℚ)

/-- FRotator3f::NormalizeAxis: wrap an angle onto (-180, 180]. -/
def normalizeAxis (angle : ℚ) : ℚ :=
  let r := clampAxis angle
  if r > 180 then r - 360 else r

/-- Modelled from the spec: UAlsMath::CounterClockwiseRotationAngleThreshold, the
directional-angle helper constant (5 degrees) used to decide whether an angle close to
180 degrees should be treated as a counterclockwise rotation. No claim depends on its
exact value. -/
def counterClockwiseRotationAngleThreshold : ℚ := 5

structure Vec2 where
  x : ℚ
  y : ℚ
  deriving DecidableEq, Repr

structure Vec3 where
  x : ℚ
  y : ℚ
  z : ℚ
  deriving DecidableEq, Repr

namespace Vec3

def zero : Vec3 := ⟨0, 0, 0⟩

def add (a b : Vec3) : Vec3 := ⟨a.x + b.x, a.y + b.y, a.z + b.z⟩

def sub (a b : Vec3) : Vec3 := ⟨a.x - b.x, a.y - b.y, a.z - b.z⟩

def smul (c : ℚ) (a : Vec3) : Vec3 := ⟨c * a.x, c * a.y, c * a.z⟩

def sizeSquared (a : Vec3) : ℚ := a.x ^ 2 + a.y ^ 2 + a.z ^ 2

/-- FVector::DistSquared. -/
def distSquared (a b : Vec3) : ℚ := sizeSquared (sub a b)

/-- Componentwise linear interpolation, FMath::Lerp on vectors. -/
def lerpV (a b : Vec3) (t : ℚ) : Vec3 := ⟨lerp a.x b.x t, lerp a.y b.y t, lerp a.z b.z t⟩

end Vec3

/-- FMath::VInterpTo, the vector analogue of `finterpTo` (snap threshold
KINDA_SMALL_NUMBER on the squared distance). -/
def vinterpTo (current target : Vec3) (dt speed : ℚ) : Vec3 :=
  if speed ≤ 0 then target
  else
    let dist := Vec3.sub target current
    if Vec3.sizeSquared dist < kindaSmallNumber then target
    else Vec3.add current (Vec3.smul (clamp (dt * speed) 0 1) dist)

/-- L1 norm of a vector: the denominator of the directional split in
RefreshVelocityBlend (line 525). -/
def l1Norm (v : Vec3) : ℚ := |v.x| + |v.y| + |v.z|

/-- Composite of FVector::GetSafeNormal and the division by the L1 norm in
RefreshVelocityBlend (lines 519-526). GetSafeNormal returns the zero vector when the
squared size is below the SMALL_NUMBER tolerance and otherwise scales `v` by the positive
factor 1 / |v|; that factor cancels in the subsequent division by the L1 norm, so above
tolerance the composite equals v / l1Norm v exactly. In the sub-tolerance branch the
source divides zero by zero (an IEEE NaN that the claims never exercise); the model
returns the zero vector there. -/
def relativeDirection (v : Vec3) : Vec3 :=
  if Vec3.sizeSquared v < smallNumber then Vec3.zero
  else ⟨v.x / l1Norm v, v.y / l1Norm v, v.z / l1Norm v⟩

/-- A rotation reduced to the two Euler components this code reads (roll is never used). -/
structure Rotator where
  yaw : ℚ
  pitch : ℚ
  deriving DecidableEq, Repr

/-- The named animation curves read through GetCurveValue during one frame, one field per
UAlsConstants curve name used by the thread-safe refresh pass. These are the raw values
delivered by the pose graph; they may be negative or greater than one. -/
structure CurveSource where
  layerHead : ℚ
  layerHeadAdditive : ℚ
  layerHeadSlot : ℚ
  layerArmLeft : ℚ
  layerArmLeftAdditive : ℚ
  layerArmLeftSlot : ℚ
  layerArmLeftLocalSpace : ℚ
  layerArmRight : ℚ
  layerArmRightAdditive : ℚ
  layerArmRightSlot : ℚ
  layerArmRightLocalSpace : ℚ
  layerHandLeft : ℚ
  layerHandRight : ℚ
  layerSpine : ℚ
  layerSpineAdditive : ℚ
  layerSpineSlot : ℚ
  layerPelvis : ℚ
  layerPelvisSlot : ℚ
  layerLegs : ℚ
  layerLegsSlot : ℚ
  poseGait : ℚ
  poseMoving : ℚ
  poseStanding : ℚ
  poseCrouching : ℚ
  poseGrounded : ℚ
  poseInAir : ℚ
  aimBlock : ℚ
  aimManual : ℚ
  sprintBlock : ℚ
  hipsDirectionLock : ℚ
  groundPredictionBlock : ℚ
  footLeftIk : ℚ
  footRightIk : ℚ
  footLeftLock : ℚ
  footRightLock : ℚ
  footPlanted : ℚ
  feetCrossing : ℚ
  allowTransitions : ℚ

/-- FAlsLayeringState: blend layering weights sourced from animation curves. The two
mesh-space amounts are booleans in spirit (the source assigns a negated IsFullWeight test
to a float field), modelled as 0 / 1. -/
structure LayeringState where
  headBlendAmount : ℚ
  headAdditiveBlendAmount : ℚ
  headSlotBlendAmount : ℚ
  armLeftBlendAmount : ℚ
  armLeftAdditiveBlendAmount : ℚ
  armLeftSlotBlendAmount : ℚ
  armLeftLocalSpaceBlendAmount : ℚ
  armLeftMeshSpaceBlendAmount : ℚ
  armRightBlendAmount : ℚ
  armRightAdditiveBlendAmount : ℚ
  armRightSlotBlendAmount : ℚ
  armRightLocalSpaceBlendAmount : ℚ
  armRightMeshSpaceBlendAmount : ℚ
  handLeftBlendAmount : ℚ
  handRightBlendAmount : ℚ
  spineBlendAmount : ℚ
  spineAdditiveBlendAmount : ℚ
  spineSlotBlendAmount : ℚ
  pelvisBlendAmount : ℚ
  pelvisSlotBlendAmount : ℚ
  legsBlendAmount : ℚ
  legsSlotBlendAmount : ℚ

/-- UAlsAnimationInstance::RefreshLayering (lines 162-201). Skipped entirely, leaving the
previous values, when animation curves are not relevant this frame. -/
def refreshLayering (curves : CurveSource) (curvesRelevant : Bool) (s : LayeringState) :
    LayeringState :=
  if !curvesRelevant then s
  else
    { headBlendAmount := getCurveValueClamped01 curves.layerHead
      headAdditiveBlendAmount := getCurveValueClamped01 curves.layerHeadAdditive
      headSlotBlendAmount := getCurveValueClamped01 curves.layerHeadSlot
      armLeftBlendAmount := getCurveValueClamped01 curves.layerArmLeft
      armLeftAdditiveBlendAmount := getCurveValueClamped01 curves.layerArmLeftAdditive
      armLeftSlotBlendAmount := getCurveValueClamped01 curves.layerArmLeftSlot
      armLeftLocalSpaceBlendAmount := getCurveValueClamped01 curves.layerArmLeftLocalSpace
      armLeftMeshSpaceBlendAmount :=
        if weightIsFullWeight (getCurveValueClamped01 curves.layerArmLeftLocalSpace) then 0 else 1
      armRightBlendAmount := getCurveValueClamped01 curves.layerArmRight
      armRightAdditiveBlendAmount := getCurveValueClamped01 curves.layerArmRightAdditive
      armRightSlotBlendAmount := getCurveValueClamped01 curves.layerArmRightSlot
      armRightLocalSpaceBlendAmount := getCurveValueClamped01 curves.layerArmRightLocalSpace
      armRightMeshSpaceBlendAmount :=
        if weightIsFullWeight (getCurveValueClamped01 curves.layerArmRightLocalSpace) then 0 else 1
      handLeftBlendAmount := getCurveValueClamped01 curves.layerHandLeft
      handRightBlendAmount := getCurveValueClamped01 curves.layerHandRight
      spineBlendAmount := getCurveValueClamped01 curves.layerSpine
      spineAdditiveBlendAmount := getCurveValueClamped01 curves.layerSpineAdditive
      spineSlotBlendAmount := getCurveValueClamped01 curves.layerSpineSlot
      pelvisBlendAmount := getCurveValueClamped01 curves.layerPelvis
      pelvisSlotBlendAmount := getCurveValueClamped01 curves.layerPelvisSlot
      legsBlendAmount := getCurveValueClamped01 curves.layerLegs
      legsSlotBlendAmount := getCurveValueClamped01 curves.layerLegsSlot }

/-- FAlsPoseState: gait / stance / ground pose amounts sourced from animation curves. -/
structure PoseState where
  gaitAmount : ℚ
  gaitWalkingAmount : ℚ
  gaitRunningAmount : ℚ
  gaitSprintingAmount : ℚ
  movingAmount : ℚ
  standingAmount : ℚ
  crouchingAmount : ℚ
  groundedAmount : ℚ
  inAirAmount : ℚ

/-- UAlsAnimationInstance::RefreshPose (lines 203-222). Skipped entirely when animation
curves are not relevant this frame. -/
def refreshPose (curves : CurveSource) (curvesRelevant : Bool) (s : PoseState) : PoseState :=
  if !curvesRelevant then s
  else
    let gait := clamp curves.poseGait 0 3
    { gaitAmount := gait
      gaitWalkingAmount := clamp01 gait
      gaitRunningAmount := clamp01 (gait - 1)
      gaitSprintingAmount := clamp01 (gait - 2)
      movingAmount := getCurveValueClamped01 curves.poseMoving
      standingAmount := getCurveValueClamped01 curves.poseStanding
      crouchingAmount := getCurveValueClamped01 curves.poseCrouching
      groundedAmount := getCurveValueClamped01 curves.poseGrounded
      inAirAmount := getCurveValueClamped01 curves.poseInAir }

/-- The aiming-allowed amount computed in RefreshView (line 249):
one minus the clamped aim-block curve. -/
def aimingAllowedAmount (curves : CurveSource) : ℚ :=
  1 - getCurveValueClamped01 curves.aimBlock

/-- The per-foot IK amount set at the top of RefreshFoot (line 878). -/
def footIkAmount (footIkCurveValue : ℚ) : ℚ := getCurveValueClamped01 footIkCurveValue

/-- A unit quaternion. Rotating a vector by a unit quaternion is polynomial in the
components, so it stays exact over the rationals. -/
structure Quat where
  x : ℚ
  y : ℚ
  z : ℚ
  w : ℚ
  deriving DecidableEq, Repr

/-- Cross product, used by the quaternion-vector rotation formula. -/
def cross (a b : Vec3) : Vec3 :=
  ⟨a.y * b.z - a.z * b.y, a.z * b.x - a.x * b.z, a.x * b.y - a.y * b.x⟩

namespace Quat

def identity : Quat := ⟨0, 0, 0, 1⟩

/-- FQuat::RotateVector: v + 2w (q x v) + 2 q x (q x v) for the imaginary part q. -/
def rotateVector (q : Quat) (v : Vec3) : Vec3 :=
  let qv : Vec3 := ⟨q.x, q.y, q.z⟩
  let t := Vec3.smul 2 (cross qv v)
  Vec3.add (Vec3.add v (Vec3.smul q.w t)) (cross qv t)

/-- FQuat::UnrotateVector: rotation by the conjugate. -/
def unrotateVector (q : Quat) (v : Vec3) : Vec3 :=
  rotateVector ⟨-q.x, -q.y, -q.z, q.w⟩ v

end Quat

/-- An affine transform (FTransform) reduced to the parts this code applies to positions. -/
structure CTransform where
  rotation : Quat
  translation : Vec3
  scale3D : Vec3
  deriving DecidableEq, Repr

/-- FTransform::TransformPosition: scale, rotate, then translate. -/
def CTransform.transformPosition (t : CTransform) (v : Vec3) : Vec3 :=
  Vec3.add (Quat.rotateVector t.rotation ⟨t.scale3D.x * v.x, t.scale3D.y * v.y, t.scale3D.z * v.z⟩)
    t.translation

/-- The rotation-mode tag set {VelocityDirection, LookingDirection, Aiming}. -/
inductive RotationMode
  | velocityDirection
  | lookingDirection
  | aiming
  deriving DecidableEq, Repr

def RotationMode.isVelocityDirection : RotationMode → Bool
  | .velocityDirection => true
  | _ => false

def RotationMode.isLookingDirection : RotationMode → Bool
  | .lookingDirection => true
  | _ => false

def RotationMode.isAiming : RotationMode → Bool
  | .aiming => true
  | _ => false

/-- EAlsStance. -/
inductive Stance
  | standing
  | crouching
  deriving DecidableEq, Repr

/-- The locomotion-mode tags this code compares against. -/
inductive LocomotionMode
  | grounded
  | inAir
  deriving DecidableEq, Repr

/-- The movement-base snapshot captured by RefreshLocomotionGameThread (lines 409-426),
reduced to the fields read by the worker pass. -/
structure BasedMovementState where
  primitive : ℕ
  boneName : ℕ
  baseChanged : Bool
  hasRelativeLocation : Bool
  location : Vec3
  rotation : Quat
  deriving DecidableEq, Repr

/-- FAlsLocomotionAnimationState, reduced to the fields read by the modelled refreshes.
It is written once per frame by the game-thread pass and read-only afterwards. -/
structure LocomotionState where
  hasInput : Bool
  inputYawAngle : ℚ
  speed : ℚ
  velocity : Vec3
  velocityYawAngle : ℚ
  maxAcceleration : ℚ
  maxBrakingDeceleration : ℚ
  walkableFloorZ : ℚ
  moving : Bool
  movingSmooth : Bool
  targetYawAngle : ℚ
  location : Vec3
  rotation : Rotator
  rotationQuaternion : Quat
  yawSpeed : ℚ
  scale : ℚ
  capsuleRadius : ℚ
  capsuleHalfHeight : ℚ
  basedMovement : BasedMovementState
  deriving DecidableEq, Repr

/-- The LookTowardsInput sub-state of FAlsViewAnimationState. -/
structure LookTowardsInputState where
  reinitializationRequired : Bool
  yawAngle : ℚ
  yawAmount : ℚ
  deriving DecidableEq, Repr

/-- The LookTowardsCamera sub-state of FAlsViewAnimationState. -/
structure LookTowardsCameraState where
  reinitializationRequired : Bool
  rotation : Rotator
  yawAngle : ℚ
  pitchAngle : ℚ
  yawForwardAmount : ℚ
  yawLeftAmount : ℚ
  yawRightAmount : ℚ
  deriving DecidableEq, Repr

/-- FAlsViewAnimationState. -/
structure ViewState where
  rotation : Rotator
  yawSpeed : ℚ
  yawAngle : ℚ
  pitchAngle : ℚ
  pitchAmount : ℚ
  lookAmount : ℚ
  targetSpineYawAngle : ℚ
  spineYawAngle : ℚ
  lookTowardsInput : LookTowardsInputState
  lookTowardsCamera : LookTowardsCameraState
  deriving DecidableEq, Repr

/-- The View settings block, reduced to the fields the modelled refreshes read. -/
structure ViewSettings where
  lookTowardsInputYawAngleInterpolationSpeed : ℚ
  lookTowardsCameraRotationInterpolationSpeed : ℚ
  deriving DecidableEq, Repr

/-- UAlsAnimationInstance::RefreshLookTowardsInput (lines 284-335). `expDecay dt speed`
stands for UAlsMath::ExponentialDecay (transcendental, kept abstract; it is only applied
in the non-reinitialization branch). -/
def refreshLookTowardsInput (expDecay : ℚ → ℚ → ℚ) (st : ViewSettings) (pendingUpdate : Bool)
    (loco : LocomotionState) (dt : ℚ) (prev : LookTowardsInputState) : LookTowardsInputState :=
  let reinit := prev.reinitializationRequired || pendingUpdate
  let targetYawAngle0 :=
    normalizeAxis ((if loco.hasInput then loco.inputYawAngle else loco.targetYawAngle) -
      loco.rotation.yaw)
  let yawAngle :=
    if reinit = true ∨ st.lookTowardsInputYawAngleInterpolationSpeed ≤ 0 then targetYawAngle0
    else
      let targetYawAngle :=
        if targetYawAngle0 > 180 - counterClockwiseRotationAngleThreshold then targetYawAngle0 - 360
        else targetYawAngle0
      let yawAngle0 := normalizeAxis (prev.yawAngle - loco.rotation.yaw)
      let deltaYawAngle0 := clamp (targetYawAngle - yawAngle0) (-90) 90
      let deltaYawAngle :=
        if |loco.yawSpeed| > smallNumber ∧ |targetYawAngle| > 90 ∧
            |targetYawAngle| < 180 - counterClockwiseRotationAngleThreshold then
          (if loco.yawSpeed > 0 then |deltaYawAngle0| else -|deltaYawAngle0|)
        else deltaYawAngle0
      normalizeAxis (yawAngle0 +
        deltaYawAngle * expDecay dt st.lookTowardsInputYawAngleInterpolationSpeed)
  { reinitializationRequired := false
    yawAngle := normalizeAxis (loco.rotation.yaw + clamp yawAngle (-90) 90)
    yawAmount := yawAngle / 180 + 1 / 2 }

/-- UAlsAnimationInstance::RefreshLookTowardsCamera (lines 337-368). `decayRot` stands for
the rotator overload of UAlsMath::ExponentialDecay (transcendental, kept abstract; only
applied in the non-reinitialization branch). -/
def refreshLookTowardsCamera (decayRot : Rotator → Rotator → ℚ → ℚ → Rotator)
    (st : ViewSettings) (pendingUpdate : Bool) (viewRotation locomotionRotation : Rotator)
    (dt : ℚ) (prev : LookTowardsCameraState) : LookTowardsCameraState :=
  let reinit := prev.reinitializationRequired || pendingUpdate
  let rot :=
    if reinit then viewRotation
    else decayRot prev.rotation viewRotation dt st.lookTowardsCameraRotationInterpolationSpeed
  let yawAngle := normalizeAxis (rot.yaw - locomotionRotation.yaw)
  let pitchAngle := normalizeAxis (rot.pitch - locomotionRotation.pitch)
  let yawForwardAmount := yawAngle / 360 + 1 / 2
  { reinitializationRequired := false
    rotation := rot
    yawAngle := yawAngle
    pitchAngle := pitchAngle
    yawForwardAmount := yawForwardAmount
    yawLeftAmount := 1 / 2 - |yawForwardAmount - 1 / 2|
    yawRightAmount := 1 / 2 + |yawForwardAmount - 1 / 2| }

/-- The look amount computed in RefreshView (line 252): aiming-allowed times one minus
the manual-aim amount. -/
def viewLookAmount (curves : CurveSource) : ℚ :=
  aimingAllowedAmount curves * (1 - getCurveValueClamped01 curves.aimManual)

/-- Which of the two look sub-refreshes actually ran during RefreshView. -/
inductive LookRefreshChoice
  | towardsInput
  | towardsCamera
  | skipped
  deriving DecidableEq, Repr

/-- UAlsAnimationInstance::RefreshView (lines 239-282) together with
IsSpineRotationAllowed (line 234-237). Returns the updated view state and which look
sub-refresh ran. `locomotionActionValid` is LocomotionAction.IsValid(): a locomotion
action such as ragdolling is active. -/
def refreshView (expDecay : ℚ → ℚ → ℚ) (decayRot : Rotator → Rotator → ℚ → ℚ → Rotator)
    (st : ViewSettings) (curves : CurveSource) (pendingUpdate locomotionActionValid : Bool)
    (rotationMode : RotationMode) (loco : LocomotionState) (dt : ℚ) (prev : ViewState) :
    ViewState × LookRefreshChoice :=
  let s1 :=
    if !locomotionActionValid then
      let yawAngle := normalizeAxis (prev.rotation.yaw - loco.rotation.yaw)
      let pitchAngle := normalizeAxis (prev.rotation.pitch - loco.rotation.pitch)
      { prev with yawAngle := yawAngle, pitchAngle := pitchAngle,
                  pitchAmount := 1 / 2 - pitchAngle / 180 }
    else prev
  let aimingAllowed := aimingAllowedAmount curves
  let aimingManual := getCurveValueClamped01 curves.aimManual
  let s2 := { s1 with lookAmount := viewLookAmount curves }
  let s3 :=
    if rotationMode.isAiming then
      { s2 with targetSpineYawAngle :=
          if s2.yawAngle > 180 - counterClockwiseRotationAngleThreshold then s2.yawAngle - 360
          else s2.yawAngle }
    else s2
  let spineYaw := normalizeAxis (s3.targetSpineYawAngle * aimingAllowed * aimingManual)
  let s4 := { s3 with spineYawAngle := spineYaw }
  if ¬ weightIsRelevant s4.lookAmount then
    ({ s4 with
        lookTowardsInput := { s4.lookTowardsInput with reinitializationRequired := true }
        lookTowardsCamera := { s4.lookTowardsCamera with reinitializationRequired := true } },
      .skipped)
  else if rotationMode.isVelocityDirection then
    ({ s4 with
        lookTowardsCamera := { s4.lookTowardsCamera with reinitializationRequired := true }
        lookTowardsInput := refreshLookTowardsInput expDecay st pendingUpdate loco dt
          s4.lookTowardsInput },
      .towardsInput)
  else
    ({ s4 with
        lookTowardsInput := { s4.lookTowardsInput with reinitializationRequired := true }
        lookTowardsCamera := refreshLookTowardsCamera decayRot st pendingUpdate s4.rotation
          loco.rotation dt s4.lookTowardsCamera },
      .towardsCamera)

/-- The velocity-blend 4-tuple of FAlsGroundedState. -/
structure VelocityBlendState where
  reinitializationRequired : Bool
  forwardAmount : ℚ
  backwardAmount : ℚ
  leftAmount : ℚ
  rightAmount : ℚ
  deriving DecidableEq, Repr

/-- The Grounded settings block, reduced to the fields the modelled refreshes read. -/
structure GroundedSettings where
  velocityBlendInterpolationSpeed : ℚ
  pivotActivationSpeedThreshold : ℚ
  deriving DecidableEq, Repr

/-- UAlsAnimationInstance::RefreshVelocityBlend (lines 511-555). `relativeVelocity` is
LocomotionState.RotationQuaternion.UnrotateVector(LocomotionState.Velocity); the
directional split of lines 519-526 is `relativeDirection`. -/
def refreshVelocityBlend (st : GroundedSettings) (pendingUpdate : Bool)
    (relativeVelocity : Vec3) (dt : ℚ) (prev : VelocityBlendState) : VelocityBlendState :=
  let reinit := prev.reinitializationRequired || pendingUpdate
  let d := relativeDirection relativeVelocity
  if reinit then
    { reinitializationRequired := false
      forwardAmount := clamp01 d.x
      backwardAmount := |clamp d.x (-1) 0|
      leftAmount := |clamp d.y (-1) 0|
      rightAmount := clamp01 d.y }
  else
    { reinitializationRequired := false
      forwardAmount :=
        finterpTo prev.forwardAmount (clamp01 d.x) dt st.velocityBlendInterpolationSpeed
      backwardAmount :=
        finterpTo prev.backwardAmount |clamp d.x (-1) 0| dt st.velocityBlendInterpolationSpeed
      leftAmount :=
        finterpTo prev.leftAmount |clamp d.y (-1) 0| dt st.velocityBlendInterpolationSpeed
      rightAmount :=
        finterpTo prev.rightAmount (clamp01 d.y) dt st.velocityBlendInterpolationSpeed }

/-- FAlsInAirState, reduced to the fields the modelled refreshes touch. -/
structure InAirState where
  jumped : Bool
  jumpRequested : Bool
  jumpPlayRate : ℚ
  verticalVelocity : ℚ
  groundPredictionAmount : ℚ
  deriving DecidableEq, Repr

/-- The outcome of the ground-prediction capsule sweep, an input delivered by the
world-query collaborator (the sweep endpoints only parameterize that query). -/
structure SweepHit where
  validBlockingHit : Bool
  impactNormal : Vec3
  time : ℚ
  deriving DecidableEq, Repr

/-- UAlsAnimationInstance::RefreshGroundPredictionAmount (lines 713-790).
`predictionCurve` is Settings->InAir.GroundPredictionAmountCurve->GetFloatValue.
The sweep geometry (lines 734-761) only determines the world query whose result is the
`hit` input, so it is not recomputed here. -/
def refreshGroundPredictionAmount (predictionCurve : ℚ → ℚ) (curves : CurveSource)
    (verticalVelocity walkableFloorZ : ℚ) (hit : SweepHit) : ℚ :=
  if verticalVelocity > -200 then 0
  else
    let allowanceAmount := 1 - getCurveValueClamped01 curves.groundPredictionBlock
    if allowanceAmount ≤ kindaSmallNumber then 0
    else if hit.validBlockingHit = true ∧ walkableFloorZ ≤ hit.impactNormal.z then
      predictionCurve hit.time * allowanceAmount
    else 0

/-- Modelled from the spec: UAlsMath::LerpClamped, the clamped lerp from the math-utilities
section (interpolation fraction clamped to [0, 1]). -/
def lerpClamped (a b t : ℚ) : ℚ := lerp a b (clamp01 t)

/-- FAlsLeanState. -/
structure LeanState where
  rightAmount : ℚ
  forwardAmount : ℚ
  deriving DecidableEq, Repr

/-- UAlsAnimationInstance::RefreshInAirLeanAmount (lines 792-818). `leanAmountCurve` is
Settings->InAir.LeanAmountCurve->GetFloatValue; `relativeVelocityRaw` is the unrotated
locomotion velocity. -/
def refreshInAirLeanAmount (leanAmountCurve : ℚ → ℚ) (leanInterpolationSpeed : ℚ)
    (pendingUpdate : Bool) (relativeVelocityRaw : Vec3) (verticalVelocity dt : ℚ)
    (prev : LeanState) : LeanState :=
  let relativeVelocity :=
    Vec3.smul (leanAmountCurve verticalVelocity) (Vec3.smul (1 / 350) relativeVelocityRaw)
  if pendingUpdate then
    { rightAmount := relativeVelocity.y, forwardAmount := relativeVelocity.x }
  else
    { rightAmount := finterpTo prev.rightAmount relativeVelocity.y dt leanInterpolationSpeed
      forwardAmount := finterpTo prev.forwardAmount relativeVelocity.x dt leanInterpolationSpeed }

/-- UAlsAnimationInstance::RefreshInAir (lines 688-711), wiring the jump play-rate, the
vertical-velocity capture, the ground prediction and the in-air lean. -/
def refreshInAir (predictionCurve leanAmountCurve : ℚ → ℚ) (leanInterpolationSpeed : ℚ)
    (pendingUpdate : Bool) (locomotionMode : LocomotionMode) (curves : CurveSource)
    (loco : LocomotionState) (hit : SweepHit) (dt : ℚ) (s : InAirState) (leanState : LeanState) :
    InAirState × LeanState :=
  let s :=
    if s.jumped then { s with jumpPlayRate := lerpClamped (6/5) (3/2) (loco.speed / 600) }
    else s
  if locomotionMode ≠ LocomotionMode.inAir then (s, leanState)
  else
    let s := { s with verticalVelocity := loco.velocity.z }
    let prediction :=
      refreshGroundPredictionAmount predictionCurve curves s.verticalVelocity
        loco.walkableFloorZ hit
    let s := { s with groundPredictionAmount := prediction }
    let leanState := refreshInAirLeanAmount leanAmountCurve leanInterpolationSpeed pendingUpdate
      (Quat.unrotateVector loco.rotationQuaternion loco.velocity) s.verticalVelocity dt leanState
    (s, leanState)

/-- Modelled from the spec: the state of the critically-damped spring filter
(FAlsSpringVectorState) used for foot-offset smoothing. Its internal layout is outside the
given sources; per the spec it is a second-order filter, so it carries a velocity and the
previous target. Reset zeroes it. -/
structure SpringState where
  velocity : Vec3
  previousTarget : Vec3
  deriving DecidableEq, Repr

def SpringState.reset : SpringState := ⟨Vec3.zero, Vec3.zero⟩

/-- The signature of UAlsMath::SpringDamp on vectors: current, target, spring state,
delta time, frequency, damping ratio, target velocity amount. Transcendental, so the
refreshes take it as an abstract parameter; it is only applied in branches no claim
constrains. -/
abbrev SpringDampFn :=
  Vec3 → Vec3 → SpringState → ℚ → ℚ → ℚ → ℚ → Vec3 × SpringState

/-- The outcome of the per-foot downward line trace, an input delivered by the
world-query collaborator (the trace endpoints only parameterize that query). -/
structure FootTraceHit where
  validBlockingHit : Bool
  impactPoint : Vec3
  impactNormal : Vec3
  deriving DecidableEq, Repr

/-- FAlsFootState, reduced to the scalar and location fields (rotation-valued fields are
omitted: no claim reads them and they never flow back into the fields kept here). -/
structure FootState where
  ikAmount : ℚ
  lockAmount : ℚ
  targetLocation : Vec3
  lockLocation : Vec3
  lockComponentRelativeLocation : Vec3
  lockMovementBaseRelativeLocation : Vec3
  offsetTargetLocation : Vec3
  offsetLocation : Vec3
  offsetSpringState : SpringState
  ikLocation : Vec3
  deriving DecidableEq, Repr

/-- FAlsFeetState. -/
structure FeetState where
  reinitializationRequired : Bool
  footPlantedAmount : ℚ
  feetCrossingAmount : ℚ
  minMaxPelvisOffsetZ : Vec2
  left : FootState
  right : FootState
  deriving DecidableEq, Repr

/-- The Feet settings block, reduced to the fields the modelled refreshes read. -/
structure FeetSettings where
  disableFootLock : Bool
  footHeight : ℚ
  deriving DecidableEq, Repr

/-- UAlsAnimationInstance::ProcessFootLockTeleport (lines 895-917), minus the
rotation-valued fields. `componentTransform` is the mesh component transform. -/
def processFootLockTeleport (teleported feetReinit : Bool) (componentTransform : CTransform)
    (bm : BasedMovementState) (f : FootState) : FootState :=
  if teleported = false ∨ feetReinit = true ∨
      ¬ weightIsRelevant (f.ikAmount * f.lockAmount) then f
  else
    let lockLocation := componentTransform.transformPosition f.lockComponentRelativeLocation
    let f := { f with lockLocation := lockLocation }
    if bm.hasRelativeLocation then
      { f with lockMovementBaseRelativeLocation :=
          Quat.unrotateVector bm.rotation (Vec3.sub lockLocation bm.location) }
    else f

/-- UAlsAnimationInstance::ProcessFootLockBaseChange (lines 919-950), minus the
rotation-valued fields. `cti` is the inverse of the mesh component transform. -/
def processFootLockBaseChange (feetReinit : Bool) (cti : CTransform)
    (bm : BasedMovementState) (f : FootState) : FootState :=
  if (bm.baseChanged = false ∧ feetReinit = false) ∨
      ¬ weightIsRelevant (f.ikAmount * f.lockAmount) then f
  else
    let f := if feetReinit then { f with lockLocation := f.targetLocation } else f
    let f := { f with lockComponentRelativeLocation := cti.transformPosition f.lockLocation }
    if bm.hasRelativeLocation then
      { f with lockMovementBaseRelativeLocation :=
          Quat.unrotateVector bm.rotation (Vec3.sub f.lockLocation bm.location) }
    else { f with lockMovementBaseRelativeLocation := Vec3.zero }

/-- The effective new foot-lock amount (lines 956-973): the clamped lock curve value,
forced to decay while the character is moving smoothly or not grounded. -/
def footLockNewAmount (feetReinit movingSmooth grounded : Bool)
    (dt lockCurveValue prevLockAmount : ℚ) : ℚ :=
  let raw := getCurveValueClamped01 lockCurveValue
  if movingSmooth = true ∨ grounded = false then
    if feetReinit then 0
    else max 0 (min raw (prevLockAmount - dt * (if movingSmooth then 5 else 3/5)))
  else raw

/-- UAlsAnimationInstance::RefreshFootLock (lines 952-1051), minus the rotation-valued
fields. Returns the updated foot state and the updated final (blended) location. -/
def refreshFootLock (st : FeetSettings) (lockCurveValue : ℚ)
    (feetReinit movingSmooth grounded : Bool) (bm : BasedMovementState) (cti : CTransform)
    (dt : ℚ) (f : FootState) (finalLocation : Vec3) : FootState × Vec3 :=
  let newAmount := footLockNewAmount feetReinit movingSmooth grounded dt lockCurveValue
    f.lockAmount
  if st.disableFootLock = true ∨ ¬ weightIsRelevant (f.ikAmount * newAmount) then
    let f :=
      if f.lockAmount > 0 then
        { f with lockAmount := 0, lockLocation := Vec3.zero,
                 lockComponentRelativeLocation := Vec3.zero,
                 lockMovementBaseRelativeLocation := Vec3.zero }
      else f
    (f, finalLocation)
  else
    let f :=
      if weightIsFullWeight newAmount then
        let f :=
          if newAmount > f.lockAmount then
            let f :=
              if f.lockAmount ≤ 9/10 then { f with lockLocation := finalLocation } else f
            if bm.hasRelativeLocation then
              { f with lockMovementBaseRelativeLocation :=
                  Quat.unrotateVector bm.rotation (Vec3.sub finalLocation bm.location) }
            else { f with lockMovementBaseRelativeLocation := Vec3.zero }
          else f
        { f with lockAmount := 1 }
      else if ¬ (newAmount > f.lockAmount) then { f with lockAmount := newAmount }
      else f
    let f :=
      if bm.hasRelativeLocation then
        { f with lockLocation :=
            Vec3.add bm.location (Quat.rotateVector bm.rotation f.lockMovementBaseRelativeLocation) }
      else f
    let f := { f with lockComponentRelativeLocation := cti.transformPosition f.lockLocation }
    (f, Vec3.lerpV finalLocation f.lockLocation f.lockAmount)

/-- UAlsAnimationInstance::RefreshFootOffset (lines 1053-1169), minus the rotation-valued
fields. `componentZ` is the Z coordinate of the mesh component transform location; the
downward line trace is the `hit` input. Returns the updated foot state and final location. -/
def refreshFootOffset (springDamp : SpringDampFn) (st : FeetSettings) (feetReinit : Bool)
    (locomotionMode : LocomotionMode) (hit : FootTraceHit)
    (walkableFloorZ componentZ scale dt : ℚ) (f : FootState) (finalLocation : Vec3) :
    FootState × Vec3 :=
  if ¬ weightIsRelevant f.ikAmount then
    ({ f with offsetTargetLocation := Vec3.zero, offsetSpringState := SpringState.reset },
      finalLocation)
  else if locomotionMode = LocomotionMode.inAir then
    let f := { f with offsetTargetLocation := Vec3.zero, offsetSpringState := SpringState.reset }
    if feetReinit then ({ f with offsetLocation := Vec3.zero }, finalLocation)
    else
      let offsetLocation := vinterpTo f.offsetLocation Vec3.zero dt 15
      ({ f with offsetLocation := offsetLocation }, Vec3.add finalLocation offsetLocation)
  else
    let footLocation : Vec3 := ⟨finalLocation.x, finalLocation.y, componentZ⟩
    let groundValid := hit.validBlockingHit = true ∧ walkableFloorZ ≤ hit.impactNormal.z
    let f :=
      if groundValid then
        let footHeight := st.footHeight * scale
        let target := Vec3.add (Vec3.sub hit.impactPoint footLocation)
          (Vec3.smul footHeight hit.impactNormal)
        { f with offsetTargetLocation := ⟨target.x, target.y, target.z - footHeight⟩ }
      else f
    if feetReinit then
      let f := { f with offsetSpringState := SpringState.reset,
                        offsetLocation := f.offsetTargetLocation }
      (f, Vec3.add finalLocation f.offsetLocation)
    else
      let damped := springDamp f.offsetLocation f.offsetTargetLocation f.offsetSpringState dt
        (2/5) 4 1
      let f := { f with offsetLocation := damped.1, offsetSpringState := damped.2 }
      (f, Vec3.add finalLocation f.offsetLocation)

/-- UAlsAnimationInstance::RefreshFoot (lines 875-893), minus the rotation-valued fields.
`ct` is the mesh component transform and `cti` its inverse. -/
def refreshFoot (springDamp : SpringDampFn) (st : FeetSettings)
    (ikCurveValue lockCurveValue : ℚ) (teleported feetReinit movingSmooth : Bool)
    (locomotionMode : LocomotionMode) (bm : BasedMovementState) (ct cti : CTransform)
    (hit : FootTraceHit) (walkableFloorZ componentZ scale dt : ℚ) (f : FootState) : FootState :=
  let f := { f with ikAmount := footIkAmount ikCurveValue }
  let f := processFootLockTeleport teleported feetReinit ct bm f
  let f := processFootLockBaseChange feetReinit cti bm f
  let final0 := f.targetLocation
  let lockResult := refreshFootLock st lockCurveValue feetReinit movingSmooth
    (locomotionMode = LocomotionMode.grounded) bm cti dt f final0
  let offsetResult := refreshFootOffset springDamp st feetReinit locomotionMode hit
    walkableFloorZ componentZ scale dt lockResult.1 lockResult.2
  { offsetResult.1 with ikLocation := cti.transformPosition offsetResult.2 }

/-- UAlsAnimationInstance::RefreshFeet (lines 845-873), minus the rotation-valued fields. -/
def refreshFeet (springDamp : SpringDampFn) (st : FeetSettings) (curves : CurveSource)
    (pendingUpdate curvesRelevant teleported : Bool) (locomotionMode : LocomotionMode)
    (loco : LocomotionState) (ct cti : CTransform) (leftHit rightHit : FootTraceHit)
    (componentZ dt : ℚ) (s : FeetState) : FeetState :=
  let reinit := s.reinitializationRequired || pendingUpdate || !curvesRelevant
  let s := { s with reinitializationRequired := reinit }
  if !curvesRelevant then s
  else
    let s := { s with footPlantedAmount := clamp curves.footPlanted (-1) 1,
                      feetCrossingAmount := getCurveValueClamped01 curves.feetCrossing }
    let left := refreshFoot springDamp st curves.footLeftIk curves.footLeftLock teleported
      reinit loco.movingSmooth locomotionMode loco.basedMovement ct cti leftHit
      loco.walkableFloorZ componentZ loco.scale dt s.left
    let right := refreshFoot springDamp st curves.footRightIk curves.footRightLock teleported
      reinit loco.movingSmooth locomotionMode loco.basedMovement ct cti rightHit
      loco.walkableFloorZ componentZ loco.scale dt s.right
    { s with
        left := left
        right := right
        minMaxPelvisOffsetZ := ⟨min left.offsetTargetLocation.z right.offsetTargetLocation.z,
          max left.offsetTargetLocation.z right.offsetTargetLocation.z⟩
        reinitializationRequired := false }

/-- An animation clip reference (the asset identity is all the claims compare). -/
abbrev AnimRef := ℕ

/-- FAlsTransitionsState, reduced to the fields the modelled refreshes touch. -/
structure TransitionsState where
  transitionsAllowed : Bool
  dynamicTransitionsFrameDelay : ℕ
  queuedDynamicTransitionAnimation : Option AnimRef
  deriving DecidableEq, Repr

/-- The Transitions settings block, reduced to the fields the modelled refreshes read. -/
structure TransitionsSettings where
  dynamicTransitionFootLockDistanceThreshold : ℚ
  standingDynamicTransitionLeftAnimation : Option AnimRef
  standingDynamicTransitionRightAnimation : Option AnimRef
  crouchingDynamicTransitionLeftAnimation : Option AnimRef
  crouchingDynamicTransitionRightAnimation : Option AnimRef
  deriving DecidableEq, Repr

/-- UAlsAnimationInstance::RefreshDynamicTransition (lines 1272-1354). Returns the updated
transitions state and the animation queued by this update, if any. The immediate playback
when already on the game thread only drains the queue earlier; the queued animation is
identical. -/
def refreshDynamicTransition (st : TransitionsSettings) (curvesRelevant moving : Bool)
    (locomotionMode : LocomotionMode) (stance : Stance) (scale : ℚ) (left right : FootState)
    (s : TransitionsState) : TransitionsState × Option AnimRef :=
  if s.dynamicTransitionsFrameDelay > 0 then
    ({ s with dynamicTransitionsFrameDelay := s.dynamicTransitionsFrameDelay - 1 }, none)
  else if curvesRelevant = false ∨ s.transitionsAllowed = false ∨ moving = true ∨
      locomotionMode ≠ LocomotionMode.grounded then (s, none)
  else
    let footLockDistanceThresholdSquared :=
      (st.dynamicTransitionFootLockDistanceThreshold * scale) ^ 2
    let footLockLeftDistanceSquared := Vec3.distSquared left.targetLocation left.lockLocation
    let footLockRightDistanceSquared := Vec3.distSquared right.targetLocation right.lockLocation
    let transitionLeftAllowed := weightIsRelevant left.lockAmount ∧
      footLockLeftDistanceSquared > footLockDistanceThresholdSquared
    let transitionRightAllowed := weightIsRelevant right.lockAmount ∧
      footLockRightDistanceSquared > footLockDistanceThresholdSquared
    if ¬ transitionLeftAllowed ∧ ¬ transitionRightAllowed then (s, none)
    else
      let leftAnimation :=
        if stance = Stance.crouching then st.crouchingDynamicTransitionLeftAnimation
        else st.standingDynamicTransitionLeftAnimation
      let rightAnimation :=
        if stance = Stance.crouching then st.crouchingDynamicTransitionRightAnimation
        else st.standingDynamicTransitionRightAnimation
      let dynamicTransitionAnimation :=
        if ¬ transitionLeftAllowed then rightAnimation
        else if ¬ transitionRightAllowed then leftAnimation
        else if footLockLeftDistanceSquared ≥ footLockRightDistanceSquared then leftAnimation
        else rightAnimation
      match dynamicTransitionAnimation with
      | none => (s, none)
      | some a =>
        ({ s with dynamicTransitionsFrameDelay := 2,
                  queuedDynamicTransitionAnimation := some a }, some a)

/-- UAlsAnimationInstance::RefreshTransitions (lines 1263-1270): transitions are allowed
when the allow-transitions curve is at full weight; then the dynamic-transition check. -/
def refreshTransitions (st : TransitionsSettings) (curves : CurveSource)
    (curvesRelevant moving : Bool) (locomotionMode : LocomotionMode) (stance : Stance)
    (scale : ℚ) (left right : FootState) (s : TransitionsState) :
    TransitionsState × Option AnimRef :=
  let s := { s with transitionsAllowed := decide (weightIsFullWeight curves.allowTransitions) }
  refreshDynamicTransition st curvesRelevant moving locomotionMode stance scale left right s

/-- FAlsRotateInPlaceState. -/
structure RotateInPlaceState where
  rotatingLeft : Bool
  rotatingRight : Bool
  playRate : ℚ
  footLockBlockAmount : ℚ
  deriving DecidableEq, Repr

/-- The RotateInPlace settings block. -/
structure RotateInPlaceSettings where
  viewYawAngleThreshold : ℚ
  referenceViewYawSpeed : Vec2
  playRate : Vec2
  footLockBlockViewYawAngleThreshold : ℚ
  footLockBlockViewYawSpeedThreshold : ℚ
  disableFootLock : Bool
  deriving DecidableEq, Repr

/-- UAlsAnimationInstance::IsRotateInPlaceAllowed (lines 1367-1370). -/
def isRotateInPlaceAllowed (rotationMode : RotationMode) (viewModeFirstPerson : Bool) : Bool :=
  rotationMode.isAiming || viewModeFirstPerson

/-- UAlsAnimationInstance::RefreshRotateInPlace (lines 1372-1437). -/
def refreshRotateInPlace (st : RotateInPlaceSettings) (pendingUpdate moving : Bool)
    (locomotionMode : LocomotionMode) (rotationMode : RotationMode)
    (viewModeFirstPerson : Bool) (viewYawAngle viewYawSpeed dt : ℚ) (s : RotateInPlaceState) :
    RotateInPlaceState :=
  if moving = true ∨ locomotionMode ≠ LocomotionMode.grounded ∨
      isRotateInPlaceAllowed rotationMode viewModeFirstPerson = false then
    { rotatingLeft := false
      rotatingRight := false
      playRate :=
        if pendingUpdate then st.playRate.x else finterpTo s.playRate st.playRate.x dt 5
      footLockBlockAmount := 0 }
  else
    let rotatingLeft : Bool := decide (viewYawAngle < -st.viewYawAngleThreshold)
    let rotatingRight : Bool := decide (viewYawAngle > st.viewYawAngleThreshold)
    if rotatingLeft = false ∧ rotatingRight = false then
      { rotatingLeft := false
        rotatingRight := false
        playRate :=
          if pendingUpdate then st.playRate.x else finterpTo s.playRate st.playRate.x dt 5
        footLockBlockAmount := 0 }
    else
      let targetPlayRate := mappedRangeClamped st.referenceViewYawSpeed.x
        st.referenceViewYawSpeed.y st.playRate.x st.playRate.y viewYawSpeed
      { rotatingLeft := rotatingLeft
        rotatingRight := rotatingRight
        playRate :=
          if pendingUpdate then targetPlayRate else finterpTo s.playRate targetPlayRate dt 5
        footLockBlockAmount :=
          if st.disableFootLock then 0
          else if |viewYawAngle| > st.footLockBlockViewYawAngleThreshold then 1
          else if viewYawSpeed ≤ st.footLockBlockViewYawSpeedThreshold then 0
          else if pendingUpdate then 1
          else finterpTo s.footLockBlockAmount 1 dt 5 }

/-- UAlsTurnInPlaceSettings: one turn-animation variant. -/
structure TurnVariantSettings where
  animation : Option AnimRef
  playRate : ℚ
  scalePlayRateByAnimatedTurnAngle : Bool
  animatedTurnAngle : ℚ
  deriving DecidableEq, Repr

/-- The TurnInPlace settings block. -/
structure TurnInPlaceGeneralSettings where
  viewYawAngleThreshold : ℚ
  viewYawSpeedThreshold : ℚ
  viewYawAngleToActivationDelay : Vec2
  turn180AngleThreshold : ℚ
  disableFootLock : Bool
  standingTurn90Left : Option TurnVariantSettings
  standingTurn90Right : Option TurnVariantSettings
  standingTurn180Left : Option TurnVariantSettings
  standingTurn180Right : Option TurnVariantSettings
  crouchingTurn90Left : Option TurnVariantSettings
  crouchingTurn90Right : Option TurnVariantSettings
  crouchingTurn180Left : Option TurnVariantSettings
  crouchingTurn180Right : Option TurnVariantSettings
  deriving DecidableEq, Repr

/-- FAlsTurnInPlaceState, reduced to the fields the modelled refreshes touch (the queued
slot name is omitted: it is determined by the stance at queue time and only names the
montage slot used at playback). -/
structure TurnInPlaceState where
  activationDelay : ℚ
  footLockDisabled : Bool
  playRate : ℚ
  queuedSettings : Option TurnVariantSettings
  queuedTurnYawAngle : ℚ
  deriving DecidableEq, Repr

/-- UAlsAnimationInstance::IsTurnInPlaceAllowed (lines 1439-1442). -/
def isTurnInPlaceAllowed (rotationMode : RotationMode) (viewModeFirstPerson : Bool) : Bool :=
  rotationMode.isLookingDirection && !viewModeFirstPerson

/-- The activation-delay threshold mapped from the absolute view yaw angle
(lines 1478-1482). -/
def turnInPlaceActivationThreshold (st : TurnInPlaceGeneralSettings) (viewYawAngle : ℚ) : ℚ :=
  mappedRangeClamped st.viewYawAngleThreshold 180 st.viewYawAngleToActivationDelay.x
    st.viewYawAngleToActivationDelay.y |viewYawAngle|

/-- The turn-variant selection by stance, turn angle and side (lines 1493-1533). -/
def turnInPlaceSelectVariant (st : TurnInPlaceGeneralSettings) (stance : Stance)
    (viewYawAngle : ℚ) : Option TurnVariantSettings :=
  let counterClockwise :=
    viewYawAngle ≤ 0 ∨ viewYawAngle > 180 - counterClockwiseRotationAngleThreshold
  match stance with
  | .standing =>
    if |viewYawAngle| < st.turn180AngleThreshold then
      if counterClockwise then st.standingTurn90Left else st.standingTurn90Right
    else
      if counterClockwise then st.standingTurn180Left else st.standingTurn180Right
  | .crouching =>
    if |viewYawAngle| < st.turn180AngleThreshold then
      if counterClockwise then st.crouchingTurn90Left else st.crouchingTurn90Right
    else
      if counterClockwise then st.crouchingTurn180Left else st.crouchingTurn180Right

/-- UAlsAnimationInstance::RefreshTurnInPlace (lines 1444-1548). Returns the updated state
and the animation queued by this update, if any. -/
def refreshTurnInPlace (st : TurnInPlaceGeneralSettings) (pendingUpdate moving : Bool)
    (locomotionMode : LocomotionMode) (rotationMode : RotationMode)
    (viewModeFirstPerson transitionsAllowed : Bool) (stance : Stance)
    (viewYawAngle viewYawSpeed dt : ℚ) (s : TurnInPlaceState) :
    TurnInPlaceState × Option AnimRef :=
  if moving = true ∨ locomotionMode ≠ LocomotionMode.grounded ∨
      isTurnInPlaceAllowed rotationMode viewModeFirstPerson = false then
    ({ s with activationDelay := 0, footLockDisabled := false }, none)
  else if transitionsAllowed = false then
    ({ s with activationDelay := 0 }, none)
  else if viewYawSpeed ≥ st.viewYawSpeedThreshold ∨ |viewYawAngle| ≤ st.viewYawAngleThreshold then
    ({ s with activationDelay := 0, footLockDisabled := false }, none)
  else
    let newDelay := if pendingUpdate then 0 else s.activationDelay + dt
    let s := { s with activationDelay := newDelay }
    if newDelay ≤ turnInPlaceActivationThreshold st viewYawAngle then (s, none)
    else
      match turnInPlaceSelectVariant st stance viewYawAngle with
      | some variant =>
        match variant.animation with
        | some a =>
          ({ s with queuedSettings := some variant, queuedTurnYawAngle := viewYawAngle }, some a)
        | none => (s, none)
      | none => (s, none)

/-- FAlsGroundedState, reduced to the fields the modelled refreshes touch (movement
direction, rotation yaw offsets, sprint acceleration, stride / walk-run blends and play
rates are omitted: their computations need settings response curves or a Euclidean norm
and no claim reads them). -/
structure GroundedState where
  sprintBlockAmount : ℚ
  hipsDirectionLockAmount : ℚ
  velocityBlend : VelocityBlendState
  sprintTime : ℚ
  pivotActive : Bool
  pivotActivationRequested : Bool
  deriving DecidableEq, Repr

/-- UAlsAnimationInstance::ResetGroundedLeanAmount (lines 674-678). -/
def resetGroundedLeanAmount (leanInterpolationSpeed dt : ℚ) (l : LeanState) : LeanState :=
  { rightAmount := finterpTo l.rightAmount 0 dt leanInterpolationSpeed
    forwardAmount := finterpTo l.forwardAmount 0 dt leanInterpolationSpeed }

/-- UAlsAnimationInstance::RefreshGrounded (lines 439-491), reduced to the sub-steps kept
in the model: the always-sampled curves, the not-grounded reset, the not-moving lean
reset, and the velocity-blend refresh. The omitted sub-steps only write the fields
omitted from `GroundedState` and the grounded lean. -/
def refreshGrounded (st : GroundedSettings) (leanInterpolationSpeed : ℚ)
    (curves : CurveSource) (pendingUpdate : Bool) (locomotionMode : LocomotionMode)
    (loco : LocomotionState) (dt : ℚ) (g : GroundedState) (l : LeanState) :
    GroundedState × LeanState :=
  let g := { g with sprintBlockAmount := getCurveValueClamped01 curves.sprintBlock,
                    hipsDirectionLockAmount := clamp curves.hipsDirectionLock (-1) 1 }
  if locomotionMode ≠ LocomotionMode.grounded then
    ({ g with velocityBlend := { g.velocityBlend with reinitializationRequired := true },
              sprintTime := 0 }, l)
  else if loco.moving = false then
    (g, resetGroundedLeanAmount leanInterpolationSpeed dt l)
  else
    let velocityBlend := refreshVelocityBlend st pendingUpdate
      (Quat.unrotateVector loco.rotationQuaternion loco.velocity) dt g.velocityBlend
    ({ g with velocityBlend := velocityBlend }, l)

/-- FAlsRagdollingState, reduced to the flail play rate. -/
structure RagdollingState where
  flailPlayRate : ℚ
  deriving DecidableEq, Repr

/-- The General settings block, reduced to the fields the modelled refreshes read. -/
structure GeneralSettings where
  movingSmoothSpeedThreshold : ℚ
  leanInterpolationSpeed : ℚ
  deriving DecidableEq, Repr

/-- UAlsAnimationInstanceSettings, reduced to the blocks the modelled refreshes read. -/
structure Settings where
  general : GeneralSettings
  view : ViewSettings
  grounded : GroundedSettings
  feet : FeetSettings
  transitions : TransitionsSettings
  rotateInPlace : RotateInPlaceSettings
  turnInPlace : TurnInPlaceGeneralSettings

/-- The transcendental helpers and settings response curves the worker pass calls through
injected interfaces: kept abstract, every claim is quantified over them. -/
structure ExternalFns where
  expDecay : ℚ → ℚ → ℚ
  decayRot : Rotator → Rotator → ℚ → ℚ → Rotator
  springDamp : SpringDampFn
  groundPredictionAmountCurve : ℚ → ℚ
  leanAmountCurve : ℚ → ℚ

/-- The whole per-instance mutable state operated on by the three per-frame entry points,
restricted to the modelled state blocks. -/
structure AlsState where
  curvesRelevant : Bool
  stance : Stance
  rotationMode : RotationMode
  locomotionMode : LocomotionMode
  locomotionActionValid : Bool
  viewModeFirstPerson : Bool
  view : ViewState
  locomotion : LocomotionState
  layering : LayeringState
  pose : PoseState
  grounded : GroundedState
  leanState : LeanState
  inAir : InAirState
  feet : FeetState
  transitions : TransitionsState
  rotateInPlace : RotateInPlaceState
  turnInPlace : TurnInPlaceState
  ragdolling : RagdollingState
  pendingUpdate : Bool
  teleported : Bool

/-- The per-frame snapshot of the character/actor collaborator consumed by the
game-thread pass (NativeUpdateAnimation). -/
structure CharacterInputs where
  stance : Stance
  rotationMode : RotationMode
  locomotionMode : LocomotionMode
  locomotionActionValid : Bool
  ragdolling : Bool
  viewModeFirstPerson : Bool
  curvesRelevantGameThread : Bool
  viewRotation : Rotator
  viewYawSpeed : ℚ
  hasInput : Bool
  hasSpeed : Bool
  inputYawAngle : ℚ
  speed : ℚ
  velocity : Vec3
  velocityYawAngle : ℚ
  maxAcceleration : ℚ
  maxBrakingDeceleration : ℚ
  walkableFloorZ : ℚ
  moving : Bool
  targetYawAngle : ℚ
  location : Vec3
  rotation : Rotator
  rotationQuaternion : Quat
  yawSpeed : ℚ
  scale : ℚ
  capsuleRadius : ℚ
  capsuleHalfHeight : ℚ
  basePrimitive : ℕ
  baseBoneName : ℕ
  baseHasRelativeLocation : Bool
  baseLocation : Vec3
  baseRotation : Quat
  footLeftTargetLocation : Vec3
  footRightTargetLocation : Vec3
  rootBoneSpeed : ℚ

/-- UAlsAnimationInstance::RefreshLocomotionGameThread (lines 370-427), minus the
rotation-valued foot fields (the acceleration vector is carried along but unused by the
modelled worker sub-steps, so it is omitted from `LocomotionState`). -/
def refreshLocomotionGameThread (st : Settings) (c : CharacterInputs)
    (prev : LocomotionState) : LocomotionState :=
  let baseChanged := c.basePrimitive ≠ prev.basedMovement.primitive ∨
    c.baseBoneName ≠ prev.basedMovement.boneName
  { hasInput := c.hasInput
    inputYawAngle := c.inputYawAngle
    speed := c.speed
    velocity := c.velocity
    velocityYawAngle := c.velocityYawAngle
    maxAcceleration := c.maxAcceleration
    maxBrakingDeceleration := c.maxBrakingDeceleration
    walkableFloorZ := c.walkableFloorZ
    moving := c.moving
    movingSmooth := (c.hasInput && c.hasSpeed) ||
      decide (c.speed > st.general.movingSmoothSpeedThreshold)
    targetYawAngle := c.targetYawAngle
    location := c.location
    rotation := c.rotation
    rotationQuaternion := c.rotationQuaternion
    yawSpeed := c.yawSpeed
    scale := c.scale
    capsuleRadius := c.capsuleRadius
    capsuleHalfHeight := c.capsuleHalfHeight
    basedMovement :=
      { primitive := c.basePrimitive
        boneName := c.baseBoneName
        baseChanged := decide baseChanged
        hasRelativeLocation := c.baseHasRelativeLocation
        location := c.baseLocation
        rotation := c.baseRotation } }

/-- UAlsAnimationInstance::NativeUpdateAnimation (lines 53-102): the game-thread pass.
Returns the state unchanged when the settings or the character reference is null
(lines 60-63). The yaw-speed forwarding into the character (line 69) is a mutation of
the external collaborator, not of this state. -/
def nativeUpdateAnimation (settings : Option Settings) (character : Option CharacterInputs)
    (s : AlsState) : AlsState :=
  match settings, character with
  | some st, some c =>
    let s := { s with
      curvesRelevant := c.curvesRelevantGameThread
      stance := c.stance
      rotationMode := c.rotationMode
      locomotionMode := c.locomotionMode
      locomotionActionValid := c.locomotionActionValid
      viewModeFirstPerson := c.viewModeFirstPerson }
    let s := { s with view := { s.view with rotation := c.viewRotation,
                                            yawSpeed := c.viewYawSpeed } }
    let locomotion := refreshLocomotionGameThread st c s.locomotion
    let s := { s with locomotion := locomotion }
    let pivotActive := s.grounded.pivotActivationRequested && !s.pendingUpdate &&
      decide (locomotion.speed < st.grounded.pivotActivationSpeedThreshold)
    let s := { s with grounded :=
        { s.grounded with pivotActive := pivotActive, pivotActivationRequested := false } }
    let s := { s with inAir :=
        { s.inAir with jumped := !s.pendingUpdate && (s.inAir.jumped || s.inAir.jumpRequested),
                       jumpRequested := false } }
    let s := { s with feet :=
        { s.feet with left := { s.feet.left with targetLocation := c.footLeftTargetLocation },
                      right := { s.feet.right with targetLocation := c.footRightTargetLocation } } }
    let s :=
      if c.ragdolling then
        { s with ragdolling := { flailPlayRate := clamp01 (c.rootBoneSpeed / 1000) } }
      else s
    s
  | _, _ => s

/-- The per-frame worker inputs: curve samples, timing, trace oracles and the mesh
component transform. -/
structure WorkerInputs where
  curves : CurveSource
  dt : ℚ
  groundPredictionHit : SweepHit
  footLeftHit : FootTraceHit
  footRightHit : FootTraceHit
  componentTransform : CTransform
  componentTransformInverse : CTransform
  componentZ : ℚ

/-- UAlsAnimationInstance::NativeThreadSafeUpdateAnimation (lines 104-129): the
worker-safe pass, composed of the modelled refresh steps in source order. Returns the
state unchanged when the settings or the character reference is null (lines 111-114). -/
def nativeThreadSafeUpdateAnimation (fns : ExternalFns) (settings : Option Settings)
    (character : Option CharacterInputs) (w : WorkerInputs) (s : AlsState) : AlsState :=
  match settings, character with
  | some st, some _ =>
    let layering := refreshLayering w.curves s.curvesRelevant s.layering
    let pose := refreshPose w.curves s.curvesRelevant s.pose
    let viewResult := refreshView fns.expDecay fns.decayRot st.view w.curves s.pendingUpdate
      s.locomotionActionValid s.rotationMode s.locomotion w.dt s.view
    let view := viewResult.1
    let groundedResult := refreshGrounded st.grounded st.general.leanInterpolationSpeed
      w.curves s.pendingUpdate s.locomotionMode s.locomotion w.dt s.grounded s.leanState
    let inAirResult := refreshInAir fns.groundPredictionAmountCurve fns.leanAmountCurve
      st.general.leanInterpolationSpeed s.pendingUpdate s.locomotionMode w.curves s.locomotion
      w.groundPredictionHit w.dt s.inAir groundedResult.2
    let feet := refreshFeet fns.springDamp st.feet w.curves s.pendingUpdate s.curvesRelevant
      s.teleported s.locomotionMode s.locomotion w.componentTransform
      w.componentTransformInverse w.footLeftHit w.footRightHit w.componentZ w.dt s.feet
    let transitionsResult := refreshTransitions st.transitions w.curves s.curvesRelevant
      s.locomotion.moving s.locomotionMode s.stance s.locomotion.scale feet.left feet.right
      s.transitions
    let rotateInPlace := refreshRotateInPlace st.rotateInPlace s.pendingUpdate
      s.locomotion.moving s.locomotionMode s.rotationMode s.viewModeFirstPerson view.yawAngle
      view.yawSpeed w.dt s.rotateInPlace
    let turnResult := refreshTurnInPlace st.turnInPlace s.pendingUpdate s.locomotion.moving
      s.locomotionMode s.rotationMode s.viewModeFirstPerson
      transitionsResult.1.transitionsAllowed s.stance view.yawAngle view.yawSpeed w.dt
      s.turnInPlace
    { s with
        layering := layering
        pose := pose
        view := view
        grounded := groundedResult.1
        leanState := inAirResult.2
        inAir := inAirResult.1
        feet := feet
        transitions := transitionsResult.1
        rotateInPlace := rotateInPlace
        turnInPlace := turnResult.1 }
  | _, _ => s

/-- UAlsAnimationInstance::NativePostEvaluateAnimation (lines 131-160) together with
PlayQueuedDynamicTransitionAnimation (lines 1356-1365) and PlayQueuedTurnInPlaceAnimation
(lines 1550-1577): drains the two queues (returning the played animations), then clears
the one-shot pending-update and teleported latches. Returns the state unchanged and plays
nothing when the settings or the character reference is null (lines 138-141). -/
def nativePostEvaluateAnimation (settings : Option Settings)
    (character : Option CharacterInputs) (s : AlsState) : AlsState × List AnimRef :=
  match settings, character with
  | some st, some _ =>
    let dynamicEvents :=
      match s.transitions.queuedDynamicTransitionAnimation with
      | some a => [a]
      | none => []
    let s := { s with transitions :=
        { s.transitions with queuedDynamicTransitionAnimation := none } }
    let turnResult :=
      match s.turnInPlace.queuedSettings with
      | none => (s.turnInPlace, ([] : List AnimRef))
      | some variant =>
        let playRate :=
          if variant.scalePlayRateByAnimatedTurnAngle then
            variant.playRate * |s.turnInPlace.queuedTurnYawAngle / variant.animatedTurnAngle|
          else variant.playRate
        ({ s.turnInPlace with
            playRate := playRate
            footLockDisabled := st.turnInPlace.disableFootLock
            queuedSettings := none
            queuedTurnYawAngle := 0 },
          variant.animation.toList)
    let s := { s with turnInPlace := turnResult.1 }
    ({ s with pendingUpdate := false, teleported := false }, dynamicEvents ++ turnResult.2)
  | _, _ => (s, [])

/-- Membership in the closed unit interval, the range the clamped blend amounts live in. -/
def inUnitInterval (x : ℚ) : Prop := 0 ≤ x ∧ x ≤ 1

/-- A foot qualifies for a dynamic transition (lines 1297-1303): its lock amount is
relevant and the squared distance between its lock location and its target location
exceeds the scale-adjusted threshold. -/
def dynamicTransitionFootQualifies (st : TransitionsSettings) (scale : ℚ)
    (foot : FootState) : Prop :=
  weightIsRelevant foot.lockAmount ∧
    Vec3.distSquared foot.targetLocation foot.lockLocation >
      (st.dynamicTransitionFootLockDistanceThreshold * scale) ^ 2

/-! Concrete sample values, used to instantiate the universally quantified theorems
below at explicit inputs. -/

def zeroCurves : CurveSource :=
  ⟨0, 0, 0, 0, 0, 0, 0, 0, 0, 0, 0, 0, 0, 0, 0, 0, 0, 0, 0,
    0, 0, 0, 0, 0, 0, 0, 0, 0, 0, 0, 0, 0, 0, 0, 0, 0, 0, 0⟩

def blockedAimCurves : CurveSource := { zeroCurves with aimBlock := 1 }

def blockedPredictionCurves : CurveSource := { zeroCurves with groundPredictionBlock := 1 }

def sampleFns : ExternalFns :=
  { expDecay := fun _ _ => 0
    decayRot := fun r _ _ _ => r
    springDamp := fun current _ spring _ _ _ _ => (current, spring)
    groundPredictionAmountCurve := fun _ => 1
    leanAmountCurve := fun _ => 1 }

def sampleViewSettings : ViewSettings := ⟨8, 8⟩

def sampleGroundedSettings : GroundedSettings := ⟨12, 200⟩

def sampleFeetSettings : FeetSettings := ⟨false, 2⟩

def sampleTransitionsSettings : TransitionsSettings := ⟨8, some 1, some 2, some 3, some 4⟩

def sampleRotateInPlaceSettings : RotateInPlaceSettings :=
  ⟨50, ⟨180, 460⟩, ⟨23/20, 3⟩, 120, 620, false⟩

def sampleTurnSettings : TurnInPlaceGeneralSettings :=
  { viewYawAngleThreshold := 45
    viewYawSpeedThreshold := 50
    viewYawAngleToActivationDelay := ⟨0, 0⟩
    turn180AngleThreshold := 130
    disableFootLock := false
    standingTurn90Left := some ⟨some 11, 1, true, 90⟩
    standingTurn90Right := some ⟨some 12, 1, true, 90⟩
    standingTurn180Left := some ⟨some 13, 1, true, 180⟩
    standingTurn180Right := some ⟨some 14, 1, true, 180⟩
    crouchingTurn90Left := some ⟨some 15, 1, true, 90⟩
    crouchingTurn90Right := some ⟨some 16, 1, true, 90⟩
    crouchingTurn180Left := some ⟨some 17, 1, true, 180⟩
    crouchingTurn180Right := some ⟨some 18, 1, true, 180⟩ }

def sampleGeneralSettings : GeneralSettings := ⟨150, 4⟩

def sampleSettings : Settings :=
  ⟨sampleGeneralSettings, sampleViewSettings, sampleGroundedSettings, sampleFeetSettings,
    sampleTransitionsSettings, sampleRotateInPlaceSettings, sampleTurnSettings⟩

def sampleBasedMovement : BasedMovementState := ⟨0, 0, false, false, Vec3.zero, Quat.identity⟩

def sampleLocomotion : LocomotionState :=
  { hasInput := false
    inputYawAngle := 0
    speed := 0
    velocity := Vec3.zero
    velocityYawAngle := 0
    maxAcceleration := 1
    maxBrakingDeceleration := 1
    walkableFloorZ := 7/10
    moving := false
    movingSmooth := false
    targetYawAngle := 0
    location := Vec3.zero
    rotation := ⟨0, 0⟩
    rotationQuaternion := Quat.identity
    yawSpeed := 0
    scale := 1
    capsuleRadius := 30
    capsuleHalfHeight := 90
    basedMovement := sampleBasedMovement }

def sampleLookInput : LookTowardsInputState := ⟨false, 0, 1/2⟩

def sampleLookCamera : LookTowardsCameraState := ⟨false, ⟨0, 0⟩, 0, 0, 1/2, 1/2, 1/2⟩

def sampleViewState : ViewState :=
  ⟨⟨0, 0⟩, 0, 0, 0, 1/2, 1, 0, 0, sampleLookInput, sampleLookCamera⟩

def sampleVelocityBlend : VelocityBlendState := ⟨false, 0, 0, 0, 0⟩

def sampleLayering : LayeringState :=
  ⟨0, 0, 0, 0, 0, 0, 0, 0, 0, 0, 0, 0, 0, 0, 0, 0, 0, 0, 0, 0, 0, 0⟩

def samplePose : PoseState := ⟨0, 0, 0, 0, 0, 0, 0, 0, 0⟩

def sampleGroundedState : GroundedState := ⟨0, 0, sampleVelocityBlend, 0, false, false⟩

def sampleLean : LeanState := ⟨0, 0⟩

def sampleInAir : InAirState := ⟨false, false, 1, 0, 0⟩

def sampleFoot : FootState :=
  { ikAmount := 1
    lockAmount := 0
    targetLocation := Vec3.zero
    lockLocation := Vec3.zero
    lockComponentRelativeLocation := Vec3.zero
    lockMovementBaseRelativeLocation := Vec3.zero
    offsetTargetLocation := Vec3.zero
    offsetLocation := Vec3.zero
    offsetSpringState := SpringState.reset
    ikLocation := Vec3.zero }

def sampleFeetState : FeetState := ⟨false, 0, 0, ⟨0, 0⟩, sampleFoot, sampleFoot⟩

def sampleTransitionsState : TransitionsState := ⟨true, 0, none⟩

def sampleRotateState : RotateInPlaceState := ⟨false, false, 1, 0⟩

def sampleTurnState : TurnInPlaceState := ⟨0, false, 1, none, 0⟩

def sampleRagdolling : RagdollingState := ⟨0⟩

def sampleAlsState : AlsState :=
  { curvesRelevant := true
    stance := .standing
    rotationMode := .lookingDirection
    locomotionMode := .grounded
    locomotionActionValid := false
    viewModeFirstPerson := false
    view := sampleViewState
    locomotion := sampleLocomotion
    layering := sampleLayering
    pose := samplePose
    grounded := sampleGroundedState
    leanState := sampleLean
    inAir := sampleInAir
    feet := sampleFeetState
    transitions := sampleTransitionsState
    rotateInPlace := sampleRotateState
    turnInPlace := sampleTurnState
    ragdolling := sampleRagdolling
    pendingUpdate := false
    teleported := false }

def idTransform : CTransform := ⟨Quat.identity, Vec3.zero, ⟨1, 1, 1⟩⟩

def missHit : FootTraceHit := ⟨false, Vec3.zero, Vec3.zero⟩

def validHit : FootTraceHit := ⟨true, Vec3.zero, ⟨0, 0, 1⟩⟩

def sampleWorkerInputs : WorkerInputs :=
  ⟨zeroCurves, 1/60, ⟨false, Vec3.zero, 0⟩, missHit, missHit, idTransform, idTransform, 0⟩

/-- A previous-frame foot state with a stale non-zero offset target, for the
reinitialization counterexample. -/
def staleOffsetFoot : FootState := { sampleFoot with offsetTargetLocation := ⟨0, 0, 5⟩ }

/-- A foot whose lock location is far from its target, qualifying it for a dynamic
transition. -/
def farFoot : FootState :=
  { sampleFoot with lockAmount := 1, targetLocation := ⟨200, 0, 0⟩, lockLocation := Vec3.zero }

/-- A foot half way through a lock blend-out. -/
def halfLockedFoot : FootState := { sampleFoot with lockAmount := 1/2 }

/-! Helper lemmas. -/

theorem clamp_mem (x lo hi : ℚ) (h : lo ≤ hi) : lo ≤ clamp x lo hi ∧ clamp x lo hi ≤ hi := by
  unfold clamp
  split_ifs <;> constructor <;> linarith

theorem clamp01_mem (x : ℚ) : inUnitInterval (clamp01 x) := by
  unfold inUnitInterval clamp01
  exact clamp_mem x 0 1 (by norm_num)

theorem getCurveValueClamped01_mem (x : ℚ) : inUnitInterval (getCurveValueClamped01 x) :=
  clamp01_mem x

theorem one_sub_clamp01_mem (x : ℚ) : inUnitInterval (1 - getCurveValueClamped01 x) := by
  obtain ⟨h1, h2⟩ := clamp01_mem x
  exact ⟨by simpa using h2, by simpa using h1⟩

theorem normalizeAxis_eq_self (a : ℚ) (h1 : -180 < a) (h2 : a ≤ 180) : normalizeAxis a = a := by
  unfold normalizeAxis clampAxis
  rcases le_or_lt 0 a with h0 | h0
  · have hf : ⌊a / 360⌋ = 0 := by
      rw [Int.floor_eq_iff]
      push_cast
      constructor
      · positivity
      · rw [div_lt_iff₀ (by norm_num : (0:ℚ) < 360)]
        linarith
    rw [hf]
    push_cast
    split_ifs with hcase
    · exfalso; linarith
    · ring
  · have hf : ⌊a / 360⌋ = -1 := by
      rw [Int.floor_eq_iff]
      push_cast
      constructor
      · rw [le_div_iff₀ (by norm_num : (0:ℚ) < 360)]
        linarith
      · have hneg : a / 360 < 0 := div_neg_of_neg_of_pos h0 (by norm_num)
        linarith
    rw [hf]
    push_cast
    split_ifs with hcase
    · ring
    · exfalso
      apply hcase
      linarith

/-! Claim theorems. -/

/-- C1: for every raw curve value delivered by the curve source, including negative values
and values greater than one, every blend amount the layering and pose refreshes set
through GetCurveValueClamped01 (and the Clamp01-split gait amounts), the aiming-allowed
amount of the view refresh, and the per-foot IK amount lie in the closed interval
[0, 1] after the refresh. -/
theorem c1_clamped_amounts_in_unit_interval (curves : CurveSource) (layering : LayeringState)
    (pose : PoseState) (footIkCurveValue : ℚ) :
    inUnitInterval (refreshLayering curves true layering).headBlendAmount ∧
    inUnitInterval (refreshLayering curves true layering).headAdditiveBlendAmount ∧
    inUnitInterval (refreshLayering curves true layering).headSlotBlendAmount ∧
    inUnitInterval (refreshLayering curves true layering).armLeftBlendAmount ∧
    inUnitInterval (refreshLayering curves true layering).armLeftAdditiveBlendAmount ∧
    inUnitInterval (refreshLayering curves true layering).armLeftSlotBlendAmount ∧
    inUnitInterval (refreshLayering curves true layering).armLeftLocalSpaceBlendAmount ∧
    inUnitInterval (refreshLayering curves true layering).armRightBlendAmount ∧
    inUnitInterval (refreshLayering curves true layering).armRightAdditiveBlendAmount ∧
    inUnitInterval (refreshLayering curves true layering).armRightSlotBlendAmount ∧
    inUnitInterval (refreshLayering curves true layering).armRightLocalSpaceBlendAmount ∧
    inUnitInterval (refreshLayering curves true layering).handLeftBlendAmount ∧
    inUnitInterval (refreshLayering curves true layering).handRightBlendAmount ∧
    inUnitInterval (refreshLayering curves true layering).spineBlendAmount ∧
    inUnitInterval (refreshLayering curves true layering).spineAdditiveBlendAmount ∧
    inUnitInterval (refreshLayering curves true layering).spineSlotBlendAmount ∧
    inUnitInterval (refreshLayering curves true layering).pelvisBlendAmount ∧
    inUnitInterval (refreshLayering curves true layering).pelvisSlotBlendAmount ∧
    inUnitInterval (refreshLayering curves true layering).legsBlendAmount ∧
    inUnitInterval (refreshLayering curves true layering).legsSlotBlendAmount ∧
    inUnitInterval (refreshPose curves true pose).gaitWalkingAmount ∧
    inUnitInterval (refreshPose curves true pose).gaitRunningAmount ∧
    inUnitInterval (refreshPose curves true pose).gaitSprintingAmount ∧
    inUnitInterval (refreshPose curves true pose).movingAmount ∧
    inUnitInterval (refreshPose curves true pose).standingAmount ∧
    inUnitInterval (refreshPose curves true pose).crouchingAmount ∧
    inUnitInterval (refreshPose curves true pose).groundedAmount ∧
    inUnitInterval (refreshPose curves true pose).inAirAmount ∧
    inUnitInterval (aimingAllowedAmount curves) ∧
    inUnitInterval (footIkAmount footIkCurveValue) :=
  ⟨getCurveValueClamped01_mem _, getCurveValueClamped01_mem _, getCurveValueClamped01_mem _,
    getCurveValueClamped01_mem _, getCurveValueClamped01_mem _, getCurveValueClamped01_mem _,
    getCurveValueClamped01_mem _, getCurveValueClamped01_mem _, getCurveValueClamped01_mem _,
    getCurveValueClamped01_mem _, getCurveValueClamped01_mem _, getCurveValueClamped01_mem _,
    getCurveValueClamped01_mem _, getCurveValueClamped01_mem _, getCurveValueClamped01_mem _,
    getCurveValueClamped01_mem _, getCurveValueClamped01_mem _, getCurveValueClamped01_mem _,
    getCurveValueClamped01_mem _, getCurveValueClamped01_mem _, clamp01_mem _, clamp01_mem _,
    clamp01_mem _, getCurveValueClamped01_mem _, getCurveValueClamped01_mem _,
    getCurveValueClamped01_mem _, getCurveValueClamped01_mem _, getCurveValueClamped01_mem _,
    one_sub_clamp01_mem _, getCurveValueClamped01_mem _⟩

/-- C3: for every call to RefreshGroundPredictionAmount, if the stored vertical velocity
is greater than -200, or the ground-prediction-block curve leaves an allowance of at most
KINDA_SMALL_NUMBER, then the resulting ground-prediction amount is exactly 0, regardless
of the sweep result, the curve shape and all other inputs. -/
theorem c3_ground_prediction_zero (predictionCurve : ℚ → ℚ) (curves : CurveSource)
    (verticalVelocity walkableFloorZ : ℚ) (hit : SweepHit)
    (h : verticalVelocity > -200 ∨
      1 - getCurveValueClamped01 curves.groundPredictionBlock ≤ kindaSmallNumber) :
    refreshGroundPredictionAmount predictionCurve curves verticalVelocity walkableFloorZ hit
      = 0 := by
  simp only [refreshGroundPredictionAmount]
  split_ifs with h1 h2 h3
  · rfl
  · rfl
  · exact absurd (h.resolve_left h1) h2
  · rfl

/-- Witness for C3: a concrete slow-fall input with a valid walkable hit still yields 0,
and a concrete fast-fall input with a fully blocking curve still yields 0. -/
theorem c3_ground_prediction_zero_witness :
    refreshGroundPredictionAmount (fun _ => 1) zeroCurves 0 (7/10) ⟨true, ⟨0, 0, 1⟩, 1/2⟩ = 0 ∧
    refreshGroundPredictionAmount (fun _ => 1) blockedPredictionCurves (-1000) (7/10)
      ⟨true, ⟨0, 0, 1⟩, 1/2⟩ = 0 :=
  ⟨c3_ground_prediction_zero _ _ _ _ _ (Or.inl (by norm_num)),
    c3_ground_prediction_zero _ _ _ _ _ (Or.inr (by
      norm_num [getCurveValueClamped01, clamp01, clamp, blockedPredictionCurves, zeroCurves,
        kindaSmallNumber]))⟩

/-- C10: after every execution of RefreshLookTowardsCamera the derived blend amounts
satisfy YawLeftAmount + YawRightAmount = 1 exactly, and YawForwardAmount lies in [0, 1]
whenever the stored yaw angle lies in [-180, 180]. -/
theorem c10_look_towards_camera_amounts (decayRot : Rotator → Rotator → ℚ → ℚ → Rotator)
    (st : ViewSettings) (pendingUpdate : Bool) (viewRotation locomotionRotation : Rotator)
    (dt : ℚ) (prev : LookTowardsCameraState) :
    (refreshLookTowardsCamera decayRot st pendingUpdate viewRotation locomotionRotation dt
        prev).yawLeftAmount +
      (refreshLookTowardsCamera decayRot st pendingUpdate viewRotation locomotionRotation dt
        prev).yawRightAmount = 1 ∧
    (-180 ≤ (refreshLookTowardsCamera decayRot st pendingUpdate viewRotation
        locomotionRotation dt prev).yawAngle →
      (refreshLookTowardsCamera decayRot st pendingUpdate viewRotation locomotionRotation dt
        prev).yawAngle ≤ 180 →
      inUnitInterval (refreshLookTowardsCamera decayRot st pendingUpdate viewRotation
        locomotionRotation dt prev).yawForwardAmount) := by
  simp only [refreshLookTowardsCamera, inUnitInterval]
  constructor
  · ring
  · intro h1 h2
    constructor <;> linarith

/-- Witness for C10: at a concrete reinitializing input with view yaw 90 the stored yaw
angle is inside [-180, 180] and the forward amount lands in [0, 1]. -/
theorem c10_look_towards_camera_amounts_witness :
    inUnitInterval (refreshLookTowardsCamera (fun r _ _ _ => r) sampleViewSettings true
      ⟨90, 0⟩ ⟨0, 0⟩ (1/60) sampleLookCamera).yawForwardAmount := by
  have hyaw : (refreshLookTowardsCamera (fun r _ _ _ => r) sampleViewSettings true
      ⟨90, 0⟩ ⟨0, 0⟩ (1/60) sampleLookCamera).yawAngle = 90 := by
    simp only [refreshLookTowardsCamera, sampleLookCamera, Bool.false_or, if_pos]
    norm_num
    exact normalizeAxis_eq_self 90 (by norm_num) (by norm_num)
  exact (c10_look_towards_camera_amounts (fun r _ _ _ => r) sampleViewSettings true ⟨90, 0⟩
    ⟨0, 0⟩ (1/60) sampleLookCamera).2 (by rw [hyaw]; norm_num) (by rw [hyaw]; norm_num)

theorem refreshFootLock_lockAmount_eq (st : FeetSettings) (lockCurveValue : ℚ)
    (feetReinit movingSmooth grounded : Bool) (bm : BasedMovementState) (cti : CTransform)
    (dt : ℚ) (f : FootState) (finalLocation : Vec3)
    (hEnabled : st.disableFootLock = false)
    (hRelevant : weightIsRelevant (f.ikAmount *
      footLockNewAmount feetReinit movingSmooth grounded dt lockCurveValue f.lockAmount)) :
    (refreshFootLock st lockCurveValue feetReinit movingSmooth grounded bm cti dt f
        finalLocation).1.lockAmount =
      (if weightIsFullWeight
          (footLockNewAmount feetReinit movingSmooth grounded dt lockCurveValue f.lockAmount)
        then 1
        else if ¬ (footLockNewAmount feetReinit movingSmooth grounded dt lockCurveValue
            f.lockAmount > f.lockAmount)
          then footLockNewAmount feetReinit movingSmooth grounded dt lockCurveValue f.lockAmount
          else f.lockAmount) := by
  have hcond : ¬ (st.disableFootLock = true ∨ ¬ weightIsRelevant (f.ikAmount *
      footLockNewAmount feetReinit movingSmooth grounded dt lockCurveValue f.lockAmount)) := by
    push_neg
    exact ⟨by simp [hEnabled], hRelevant⟩
  simp only [refreshFootLock]
  rw [if_neg hcond]
  split_ifs <;> rfl

/-- C2: in a single RefreshFootLock update with foot locking enabled and the lock weight
relevant, the stored lock amount never rises to a value strictly between its previous
value and 1: when the effective new lock amount is at full weight the stored amount
becomes exactly 1, and otherwise the stored amount is at most its previous value. -/
theorem c2_foot_lock_monotone (st : FeetSettings) (lockCurveValue : ℚ)
    (feetReinit movingSmooth grounded : Bool) (bm : BasedMovementState) (cti : CTransform)
    (dt : ℚ) (f : FootState) (finalLocation : Vec3)
    (hEnabled : st.disableFootLock = false)
    (hRelevant : weightIsRelevant (f.ikAmount *
      footLockNewAmount feetReinit movingSmooth grounded dt lockCurveValue f.lockAmount)) :
    (weightIsFullWeight
        (footLockNewAmount feetReinit movingSmooth grounded dt lockCurveValue f.lockAmount) →
      (refreshFootLock st lockCurveValue feetReinit movingSmooth grounded bm cti dt f
        finalLocation).1.lockAmount = 1) ∧
    (¬ weightIsFullWeight
        (footLockNewAmount feetReinit movingSmooth grounded dt lockCurveValue f.lockAmount) →
      (refreshFootLock st lockCurveValue feetReinit movingSmooth grounded bm cti dt f
        finalLocation).1.lockAmount ≤ f.lockAmount) := by
  have h := refreshFootLock_lockAmount_eq st lockCurveValue feetReinit movingSmooth grounded
    bm cti dt f finalLocation hEnabled hRelevant
  constructor
  · intro hFull
    rw [h, if_pos hFull]
  · intro hNotFull
    rw [h, if_neg hNotFull]
    split_ifs with hGt
    · exact le_refl _
    · exact not_lt.mp hGt

/-- Counterexample for C9: at a concrete input where the aim-block curve is 1 the look
amount is 0 (not relevant), so RefreshView refreshes neither look sub-state and marks
both for reinitialization, falsifying the claim that every view refresh refreshes exactly
one sub-state (the rotation mode here is velocity-direction, whose sub-state the claim
says is refreshed). -/
theorem c9_exactly_one_look_refresh_counterexample :
    ¬ (((refreshView (fun _ _ => 0) (fun r _ _ _ => r) sampleViewSettings blockedAimCurves
          false false RotationMode.velocityDirection sampleLocomotion (1/60)
          sampleViewState).2 = LookRefreshChoice.towardsInput ∧
        (refreshView (fun _ _ => 0) (fun r _ _ _ => r) sampleViewSettings blockedAimCurves
          false false RotationMode.velocityDirection sampleLocomotion (1/60)
          sampleViewState).1.lookTowardsCamera.reinitializationRequired = true) ∨
      ((refreshView (fun _ _ => 0) (fun r _ _ _ => r) sampleViewSettings blockedAimCurves
          false false RotationMode.velocityDirection sampleLocomotion (1/60)
          sampleViewState).2 = LookRefreshChoice.towardsCamera ∧
        (refreshView (fun _ _ => 0) (fun r _ _ _ => r) sampleViewSettings blockedAimCurves
          false false RotationMode.velocityDirection sampleLocomotion (1/60)
          sampleViewState).1.lookTowardsInput.reinitializationRequired = true)) := by
  norm_num [refreshView, viewLookAmount, aimingAllowedAmount, getCurveValueClamped01,
    clamp01, clamp, blockedAimCurves, zeroCurves, weightIsRelevant, zeroAnimWeightThreshold,
    RotationMode.isAiming, RotationMode.isVelocityDirection]
  exact ⟨by decide, by decide⟩

/-- C9 (amended): whenever the computed look amount is relevant, exactly one of the two
look-mode sub-states is refreshed and the other one is marked for reinitialization:
velocity-direction rotation mode refreshes look-towards-input and marks
look-towards-camera, any other rotation mode refreshes look-towards-camera and marks
look-towards-input. (When the look amount is not relevant, both are marked and neither is
refreshed.) -/
theorem c9_exactly_one_look_refresh (expDecay : ℚ → ℚ → ℚ)
    (decayRot : Rotator → Rotator → ℚ → ℚ → Rotator) (st : ViewSettings)
    (curves : CurveSource) (pendingUpdate locomotionActionValid : Bool)
    (rotationMode : RotationMode) (loco : LocomotionState) (dt : ℚ) (prev : ViewState)
    (hRelevant : weightIsRelevant (viewLookAmount curves)) :
    (rotationMode.isVelocityDirection = true →
      (refreshView expDecay decayRot st curves pendingUpdate locomotionActionValid
        rotationMode loco dt prev).2 = LookRefreshChoice.towardsInput ∧
      (refreshView expDecay decayRot st curves pendingUpdate locomotionActionValid
        rotationMode loco dt prev).1.lookTowardsCamera.reinitializationRequired = true ∧
      (refreshView expDecay decayRot st curves pendingUpdate locomotionActionValid
        rotationMode loco dt prev).1.lookTowardsInput.reinitializationRequired = false) ∧
    (rotationMode.isVelocityDirection = false →
      (refreshView expDecay decayRot st curves pendingUpdate locomotionActionValid
        rotationMode loco dt prev).2 = LookRefreshChoice.towardsCamera ∧
      (refreshView expDecay decayRot st curves pendingUpdate locomotionActionValid
        rotationMode loco dt prev).1.lookTowardsInput.reinitializationRequired = true ∧
      (refreshView expDecay decayRot st curves pendingUpdate locomotionActionValid
        rotationMode loco dt prev).1.lookTowardsCamera.reinitializationRequired = false) := by
  constructor
  · intro hmode
    cases rotationMode with
    | velocityDirection =>
      simp [refreshView, refreshLookTowardsInput, RotationMode.isAiming,
        RotationMode.isVelocityDirection, hRelevant]
    | lookingDirection => simp [RotationMode.isVelocityDirection] at hmode
    | aiming => simp [RotationMode.isVelocityDirection] at hmode
  · intro hmode
    cases rotationMode with
    | velocityDirection => simp [RotationMode.isVelocityDirection] at hmode
    | lookingDirection =>
      simp [refreshView, refreshLookTowardsCamera, RotationMode.isAiming,
        RotationMode.isVelocityDirection, hRelevant]
    | aiming =>
      simp [refreshView, refreshLookTowardsCamera, RotationMode.isAiming,
        RotationMode.isVelocityDirection, hRelevant]

/-- Witness for C9 (amended): with all curves at zero the look amount is 1 (relevant);
velocity-direction mode yields the look-towards-input refresh and any other mode yields
the look-towards-camera refresh. -/
theorem c9_exactly_one_look_refresh_witness :
    (refreshView (fun _ _ => 0) (fun r _ _ _ => r) sampleViewSettings zeroCurves false false
      RotationMode.velocityDirection sampleLocomotion (1/60) sampleViewState).2 =
      LookRefreshChoice.towardsInput ∧
    (refreshView (fun _ _ => 0) (fun r _ _ _ => r) sampleViewSettings zeroCurves false false
      RotationMode.lookingDirection sampleLocomotion (1/60) sampleViewState).2 =
      LookRefreshChoice.towardsCamera := by
  have hrel : weightIsRelevant (viewLookAmount zeroCurves) := by
    norm_num [viewLookAmount, aimingAllowedAmount, getCurveValueClamped01, clamp01, clamp,
      zeroCurves, weightIsRelevant, zeroAnimWeightThreshold]
  exact ⟨((c9_exactly_one_look_refresh (fun _ _ => 0) (fun r _ _ _ => r) sampleViewSettings
      zeroCurves false false RotationMode.velocityDirection sampleLocomotion (1/60)
      sampleViewState hrel).1 rfl).1,
    ((c9_exactly_one_look_refresh (fun _ _ => 0) (fun r _ _ _ => r) sampleViewSettings
      zeroCurves false false RotationMode.lookingDirection sampleLocomotion (1/60)
      sampleViewState hrel).2 rfl).1⟩

theorem l1Norm_pos_of_not_small (v : Vec3) (h : ¬ Vec3.sizeSquared v < smallNumber) :
    0 < l1Norm v := by
  rcases lt_or_le 0 (l1Norm v) with hpos | hle
  · exact hpos
  · exfalso
    unfold l1Norm at hle
    have hx : v.x = 0 := by
      have := abs_nonneg v.x
      have := abs_nonneg v.y
      have := abs_nonneg v.z
      have : |v.x| = 0 := by linarith
      exact abs_eq_zero.mp this
    have hy : v.y = 0 := by
      have := abs_nonneg v.x
      have := abs_nonneg v.y
      have := abs_nonneg v.z
      have : |v.y| = 0 := by linarith
      exact abs_eq_zero.mp this
    have hz : v.z = 0 := by
      have := abs_nonneg v.x
      have := abs_nonneg v.y
      have := abs_nonneg v.z
      have : |v.z| = 0 := by linarith
      exact abs_eq_zero.mp this
    apply h
    unfold Vec3.sizeSquared
    rw [hx, hy, hz]
    norm_num [smallNumber]

theorem relativeDirection_abs_le (v : Vec3) :
    |(relativeDirection v).x| ≤ 1 ∧ |(relativeDirection v).y| ≤ 1 := by
  unfold relativeDirection
  split_ifs with h
  · simp [Vec3.zero]
  · have hpos := l1Norm_pos_of_not_small v h
    have hxle : |v.x| ≤ l1Norm v := by
      unfold l1Norm
      have := abs_nonneg v.y
      have := abs_nonneg v.z
      linarith
    have hyle : |v.y| ≤ l1Norm v := by
      unfold l1Norm
      have := abs_nonneg v.x
      have := abs_nonneg v.z
      linarith
    constructor
    · simp only []
      rw [abs_div, abs_of_pos hpos, div_le_one hpos]
      exact hxle
    · simp only []
      rw [abs_div, abs_of_pos hpos, div_le_one hpos]
      exact hyle

theorem clamp01_add_abs_clamp_neg (d : ℚ) (h1 : -1 ≤ d) (h2 : d ≤ 1) :
    clamp01 d + |clamp d (-1) 0| = |d| := by
  unfold clamp01 clamp
  rcases le_or_lt 0 d with h0 | h0
  · rw [abs_of_nonneg h0]
    split_ifs <;> simp_all <;> linarith
  · rw [abs_of_neg h0]
    split_ifs <;> simp_all [abs_of_neg h0] <;> linarith

theorem refreshVelocityBlend_snap (st : GroundedSettings) (v : Vec3) (dt : ℚ)
    (prev : VelocityBlendState) :
    refreshVelocityBlend st true v dt prev =
      { reinitializationRequired := false
        forwardAmount := clamp01 (relativeDirection v).x
        backwardAmount := |clamp (relativeDirection v).x (-1) 0|
        leftAmount := |clamp (relativeDirection v).y (-1) 0|
        rightAmount := clamp01 (relativeDirection v).y } := by
  simp [refreshVelocityBlend]

/-- C5 (amended): after the snap branch of RefreshVelocityBlend, forward + backward
equals the absolute value of the X component of the L1-normalized relative velocity and
left + right equals the absolute value of its Y component (exactly, over the rationals);
and for a relative velocity aligned with the X axis or the Y axis (non-zero, above the
normalization tolerance) exactly that axis's pair is non-zero and the other pair is
zero. -/
theorem c5_velocity_blend_relations (st : GroundedSettings) (v : Vec3) (dt : ℚ)
    (prev : VelocityBlendState) :
    ((refreshVelocityBlend st true v dt prev).forwardAmount +
        (refreshVelocityBlend st true v dt prev).backwardAmount =
      |(relativeDirection v).x|) ∧
    ((refreshVelocityBlend st true v dt prev).leftAmount +
        (refreshVelocityBlend st true v dt prev).rightAmount =
      |(relativeDirection v).y|) ∧
    (v.y = 0 → v.z = 0 → ¬ Vec3.sizeSquared v < smallNumber →
      ((refreshVelocityBlend st true v dt prev).forwardAmount ≠ 0 ∨
        (refreshVelocityBlend st true v dt prev).backwardAmount ≠ 0) ∧
      (refreshVelocityBlend st true v dt prev).leftAmount = 0 ∧
      (refreshVelocityBlend st true v dt prev).rightAmount = 0) ∧
    (v.x = 0 → v.z = 0 → ¬ Vec3.sizeSquared v < smallNumber →
      ((refreshVelocityBlend st true v dt prev).leftAmount ≠ 0 ∨
        (refreshVelocityBlend st true v dt prev).rightAmount ≠ 0) ∧
      (refreshVelocityBlend st true v dt prev).forwardAmount = 0 ∧
      (refreshVelocityBlend st true v dt prev).backwardAmount = 0) := by
  obtain ⟨habsx, habsy⟩ := relativeDirection_abs_le v
  have hsumx : (refreshVelocityBlend st true v dt prev).forwardAmount +
      (refreshVelocityBlend st true v dt prev).backwardAmount = |(relativeDirection v).x| := by
    rw [refreshVelocityBlend_snap]
    exact clamp01_add_abs_clamp_neg _ (abs_le.mp habsx).1 (abs_le.mp habsx).2
  have hsumy : (refreshVelocityBlend st true v dt prev).leftAmount +
      (refreshVelocityBlend st true v dt prev).rightAmount = |(relativeDirection v).y| := by
    rw [refreshVelocityBlend_snap]
    rw [add_comm]
    exact clamp01_add_abs_clamp_neg _ (abs_le.mp habsy).1 (abs_le.mp habsy).2
  refine ⟨hsumx, hsumy, ?_, ?_⟩
  · intro hy hz hns
    have hxne : v.x ≠ 0 := by
      intro h0
      apply hns
      unfold Vec3.sizeSquared
      rw [h0, hy, hz]
      norm_num [smallNumber]
    have hdx : |(relativeDirection v).x| = 1 := by
      unfold relativeDirection
      rw [if_neg hns]
      simp only []
      unfold l1Norm
      rw [hy, hz]
      simp only [abs_zero, add_zero]
      rw [abs_div, abs_abs, div_self (abs_ne_zero.mpr hxne)]
    have hdy : (relativeDirection v).y = 0 := by
      unfold relativeDirection
      rw [if_neg hns]
      simp [hy]
    refine ⟨?_, ?_, ?_⟩
    · by_contra hboth
      push_neg at hboth
      rw [hboth.1, hboth.2, hdx] at hsumx
      norm_num at hsumx
    · rw [refreshVelocityBlend_snap]
      simp [hdy, clamp]
    · rw [refreshVelocityBlend_snap]
      simp [hdy, clamp01, clamp]
  · intro hx hz hns
    have hyne : v.y ≠ 0 := by
      intro h0
      apply hns
      unfold Vec3.sizeSquared
      rw [h0, hx, hz]
      norm_num [smallNumber]
    have hdy : |(relativeDirection v).y| = 1 := by
      unfold relativeDirection
      rw [if_neg hns]
      simp only []
      unfold l1Norm
      rw [hx, hz]
      simp only [abs_zero, zero_add, add_zero]
      rw [abs_div, abs_abs, div_self (abs_ne_zero.mpr hyne)]
    have hdx : (relativeDirection v).x = 0 := by
      unfold relativeDirection
      rw [if_neg hns]
      simp [hx]
    refine ⟨?_, ?_, ?_⟩
    · by_contra hboth
      push_neg at hboth
      rw [hboth.1, hboth.2, hdy] at hsumy
      norm_num at hsumy
    · rw [refreshVelocityBlend_snap]
      simp [hdx, clamp01, clamp]
    · rw [refreshVelocityBlend_snap]
      simp [hdx, clamp]

/-- Witness for C5 (amended): at the concrete X-aligned relative velocity (300, 0, 0) the
forward/backward pair is non-zero and the left/right pair is zero. -/
theorem c5_velocity_blend_relations_witness :
    ((refreshVelocityBlend sampleGroundedSettings true ⟨300, 0, 0⟩ (1/60)
        sampleVelocityBlend).forwardAmount ≠ 0 ∨
      (refreshVelocityBlend sampleGroundedSettings true ⟨300, 0, 0⟩ (1/60)
        sampleVelocityBlend).backwardAmount ≠ 0) ∧
    (refreshVelocityBlend sampleGroundedSettings true ⟨300, 0, 0⟩ (1/60)
      sampleVelocityBlend).leftAmount = 0 ∧
    (refreshVelocityBlend sampleGroundedSettings true ⟨300, 0, 0⟩ (1/60)
      sampleVelocityBlend).rightAmount = 0 :=
  (c5_velocity_blend_relations sampleGroundedSettings ⟨300, 0, 0⟩ (1/60)
    sampleVelocityBlend).2.2.1 rfl rfl
    (by norm_num [Vec3.sizeSquared, smallNumber])

/-- Counterexample for C5: the purely vertical relative velocity (0, 0, 1000) is
axis-aligned and non-zero, yet all four blend amounts are zero after the snap branch, so
it is not the case that exactly one of the two pairs is non-zero. -/
theorem c5_axis_aligned_counterexample :
    ¬ ((((refreshVelocityBlend sampleGroundedSettings true ⟨0, 0, 1000⟩ (1/60)
            sampleVelocityBlend).forwardAmount ≠ 0 ∨
          (refreshVelocityBlend sampleGroundedSettings true ⟨0, 0, 1000⟩ (1/60)
            sampleVelocityBlend).backwardAmount ≠ 0) ∧
        (refreshVelocityBlend sampleGroundedSettings true ⟨0, 0, 1000⟩ (1/60)
            sampleVelocityBlend).leftAmount = 0 ∧
        (refreshVelocityBlend sampleGroundedSettings true ⟨0, 0, 1000⟩ (1/60)
            sampleVelocityBlend).rightAmount = 0) ∨
      (((refreshVelocityBlend sampleGroundedSettings true ⟨0, 0, 1000⟩ (1/60)
            sampleVelocityBlend).leftAmount ≠ 0 ∨
          (refreshVelocityBlend sampleGroundedSettings true ⟨0, 0, 1000⟩ (1/60)
            sampleVelocityBlend).rightAmount ≠ 0) ∧
        (refreshVelocityBlend sampleGroundedSettings true ⟨0, 0, 1000⟩ (1/60)
            sampleVelocityBlend).forwardAmount = 0 ∧
        (refreshVelocityBlend sampleGroundedSettings true ⟨0, 0, 1000⟩ (1/60)
            sampleVelocityBlend).backwardAmount = 0)) := by
  rw [refreshVelocityBlend_snap]
  norm_num [relativeDirection, Vec3.sizeSquared, l1Norm, smallNumber, clamp01, clamp]

/-- Counterexample for C6: with the reinitialization flag set (RefreshFeet ORs
bPendingUpdate into it), grounded, IK relevant but the downward foot trace missing, the
snapped foot-offset location equals the stale previous offset target, so two runs with
identical current-frame inputs and different previous offset targets produce different
outputs. -/
theorem c6_pending_update_counterexample :
    (refreshFootOffset (fun current _ spring _ _ _ _ => (current, spring)) sampleFeetSettings
        true LocomotionMode.grounded missHit (7/10) 0 1 (1/60) sampleFoot
        Vec3.zero).1.offsetLocation ≠
      (refreshFootOffset (fun current _ spring _ _ _ _ => (current, spring)) sampleFeetSettings
        true LocomotionMode.grounded missHit (7/10) 0 1 (1/60) staleOffsetFoot
        Vec3.zero).1.offsetLocation := by
  norm_num [refreshFootOffset, missHit, sampleFoot, staleOffsetFoot, weightIsRelevant,
    zeroAnimWeightThreshold, Vec3.zero, SpringState.reset]
  simp [Vec3.add]

/-- C6 (amended): when bPendingUpdate forces reinitialization, the look-towards-input,
look-towards-camera and velocity-blend refreshes are functions of the current frame's
inputs only (identical outputs for arbitrary different previous sub-states), and the
foot-offset refresh likewise provided it is in the air or its downward trace found a
valid walkable surface; when grounded with a missed trace the offset target location
retains its previous value. -/
theorem c6_pending_update_independence (expDecay : ℚ → ℚ → ℚ)
    (decayRot : Rotator → Rotator → ℚ → ℚ → Rotator) (springDamp : SpringDampFn)
    (stv : ViewSettings) (stg : GroundedSettings) (stf : FeetSettings)
    (loco : LocomotionState) (viewRotation locomotionRotation : Rotator)
    (relVelocity : Vec3) (dt : ℚ) (locomotionMode : LocomotionMode) (hit : FootTraceHit)
    (walkableFloorZ componentZ scale : ℚ) (finalLocation : Vec3) :
    (∀ prev1 prev2 : LookTowardsInputState,
      refreshLookTowardsInput expDecay stv true loco dt prev1 =
        refreshLookTowardsInput expDecay stv true loco dt prev2) ∧
    (∀ prev1 prev2 : LookTowardsCameraState,
      refreshLookTowardsCamera decayRot stv true viewRotation locomotionRotation dt prev1 =
        refreshLookTowardsCamera decayRot stv true viewRotation locomotionRotation dt prev2) ∧
    (∀ prev1 prev2 : VelocityBlendState,
      refreshVelocityBlend stg true relVelocity dt prev1 =
        refreshVelocityBlend stg true relVelocity dt prev2) ∧
    (∀ f1 f2 : FootState, f1.ikAmount = f2.ikAmount → weightIsRelevant f1.ikAmount →
      (locomotionMode = LocomotionMode.inAir ∨
        (hit.validBlockingHit = true ∧ walkableFloorZ ≤ hit.impactNormal.z)) →
      (refreshFootOffset springDamp stf true locomotionMode hit walkableFloorZ componentZ
          scale dt f1 finalLocation).1.offsetTargetLocation =
        (refreshFootOffset springDamp stf true locomotionMode hit walkableFloorZ componentZ
          scale dt f2 finalLocation).1.offsetTargetLocation ∧
      (refreshFootOffset springDamp stf true locomotionMode hit walkableFloorZ componentZ
          scale dt f1 finalLocation).1.offsetLocation =
        (refreshFootOffset springDamp stf true locomotionMode hit walkableFloorZ componentZ
          scale dt f2 finalLocation).1.offsetLocation ∧
      (refreshFootOffset springDamp stf true locomotionMode hit walkableFloorZ componentZ
          scale dt f1 finalLocation).1.offsetSpringState =
        (refreshFootOffset springDamp stf true locomotionMode hit walkableFloorZ componentZ
          scale dt f2 finalLocation).1.offsetSpringState ∧
      (refreshFootOffset springDamp stf true locomotionMode hit walkableFloorZ componentZ
          scale dt f1 finalLocation).2 =
        (refreshFootOffset springDamp stf true locomotionMode hit walkableFloorZ componentZ
          scale dt f2 finalLocation).2) := by
  refine ⟨?_, ?_, ?_, ?_⟩
  · intro prev1 prev2
    simp [refreshLookTowardsInput]
  · intro prev1 prev2
    simp [refreshLookTowardsCamera]
  · intro prev1 prev2
    rw [refreshVelocityBlend_snap, refreshVelocityBlend_snap]
  · intro f1 f2 hik hrel hcase
    have hrel2 : weightIsRelevant f2.ikAmount := by rw [← hik]; exact hrel
    by_cases hmode : locomotionMode = LocomotionMode.inAir
    · subst hmode
      simp [refreshFootOffset, hrel, hrel2]
    · rcases hcase with hmode2 | hvalid
      · exact absurd hmode2 hmode
      · simp [refreshFootOffset, hrel, hrel2, hmode, hvalid.1, hvalid.2]

/-- Witness for C6 (amended): concrete runs with different previous velocity-blend
amounts and different previous foot-offset targets (with a valid walkable hit) produce
identical outputs when the reinitialization flag is set. -/
theorem c6_pending_update_independence_witness :
    (refreshVelocityBlend sampleGroundedSettings true ⟨300, 0, 0⟩ (1/60) sampleVelocityBlend =
      refreshVelocityBlend sampleGroundedSettings true ⟨300, 0, 0⟩ (1/60) ⟨true, 1, 1, 1, 1⟩) ∧
    ((refreshFootOffset (fun current _ spring _ _ _ _ => (current, spring))
        sampleFeetSettings true LocomotionMode.grounded validHit (7/10) 0 1 (1/60) sampleFoot
        Vec3.zero).1.offsetLocation =
      (refreshFootOffset (fun current _ spring _ _ _ _ => (current, spring))
        sampleFeetSettings true LocomotionMode.grounded validHit (7/10) 0 1 (1/60)
        staleOffsetFoot Vec3.zero).1.offsetLocation) :=
  ⟨(c6_pending_update_independence (fun _ _ => 0) (fun r _ _ _ => r)
      (fun current _ spring _ _ _ _ => (current, spring)) sampleViewSettings
      sampleGroundedSettings sampleFeetSettings sampleLocomotion ⟨0, 0⟩ ⟨0, 0⟩ ⟨300, 0, 0⟩
      (1/60) LocomotionMode.grounded validHit (7/10) 0 1 Vec3.zero).2.2.1
      sampleVelocityBlend ⟨true, 1, 1, 1, 1⟩,
    ((c6_pending_update_independence (fun _ _ => 0) (fun r _ _ _ => r)
      (fun current _ spring _ _ _ _ => (current, spring)) sampleViewSettings
      sampleGroundedSettings sampleFeetSettings sampleLocomotion ⟨0, 0⟩ ⟨0, 0⟩ ⟨300, 0, 0⟩
      (1/60) LocomotionMode.grounded validHit (7/10) 0 1 Vec3.zero).2.2.2 sampleFoot
      staleOffsetFoot rfl
      (by norm_num [sampleFoot, weightIsRelevant, zeroAnimWeightThreshold])
      (Or.inr ⟨rfl, by norm_num [validHit]⟩)).2.1⟩

/-- C7: RefreshDynamicTransition selects a transition only when the frame-delay counter
(set to 2 on a trigger) has reached 0, curves are relevant, transitions are allowed, the
character is stationary and grounded; a selected transition implies some foot qualifies
(relevant lock amount and squared lock distance above the scale-adjusted threshold); the
counter is re-armed to 2; and when both feet qualify the foot with the strictly larger
lock distance is chosen (stance picking the standing or crouching clip). -/
theorem c7_dynamic_transition_selection (st : TransitionsSettings)
    (curvesRelevant moving : Bool) (locomotionMode : LocomotionMode) (stance : Stance)
    (scale : ℚ) (left right : FootState) (s : TransitionsState) (a : AnimRef)
    (h : (refreshDynamicTransition st curvesRelevant moving locomotionMode stance scale left
      right s).2 = some a) :
    s.dynamicTransitionsFrameDelay = 0 ∧
    curvesRelevant = true ∧
    s.transitionsAllowed = true ∧
    moving = false ∧
    locomotionMode = LocomotionMode.grounded ∧
    (dynamicTransitionFootQualifies st scale left ∨
      dynamicTransitionFootQualifies st scale right) ∧
    (refreshDynamicTransition st curvesRelevant moving locomotionMode stance scale left right
      s).1.dynamicTransitionsFrameDelay = 2 ∧
    (dynamicTransitionFootQualifies st scale left ∧
        dynamicTransitionFootQualifies st scale right →
      (Vec3.distSquared left.targetLocation left.lockLocation >
          Vec3.distSquared right.targetLocation right.lockLocation →
        some a = (if stance = Stance.crouching then st.crouchingDynamicTransitionLeftAnimation
          else st.standingDynamicTransitionLeftAnimation)) ∧
      (Vec3.distSquared right.targetLocation right.lockLocation >
          Vec3.distSquared left.targetLocation left.lockLocation →
        some a = (if stance = Stance.crouching then st.crouchingDynamicTransitionRightAnimation
          else st.standingDynamicTransitionRightAnimation))) := by
  have hmain := h
  simp only [refreshDynamicTransition] at hmain
  by_cases h0 : s.dynamicTransitionsFrameDelay > 0
  · rw [if_pos h0] at hmain
    exact absurd hmain (by simp)
  rw [if_neg h0] at hmain
  by_cases hgate : curvesRelevant = false ∨ s.transitionsAllowed = false ∨ moving = true ∨
      locomotionMode ≠ LocomotionMode.grounded
  · rw [if_pos hgate] at hmain
    exact absurd hmain (by simp)
  rw [if_neg hgate] at hmain
  have hgates := hgate
  push_neg at hgates
  obtain ⟨hcr, hta, hmv, hlm⟩ := hgates
  by_cases hqual : ¬ (weightIsRelevant left.lockAmount ∧
        Vec3.distSquared left.targetLocation left.lockLocation >
          (st.dynamicTransitionFootLockDistanceThreshold * scale) ^ 2) ∧
      ¬ (weightIsRelevant right.lockAmount ∧
        Vec3.distSquared right.targetLocation right.lockLocation >
          (st.dynamicTransitionFootLockDistanceThreshold * scale) ^ 2)
  · rw [if_pos hqual] at hmain
    exact absurd hmain (by simp)
  rw [if_neg hqual] at hmain
  split at hmain
  · exact absurd hmain (by simp)
  · rename_i a1 heq
    simp only [Option.some.injEq] at hmain
    subst hmain
    refine ⟨Nat.eq_zero_of_not_pos h0, ?_, ?_, ?_, hlm, ?_, ?_, ?_⟩
    · cases hb : curvesRelevant with
      | false => exact absurd hb hcr
      | true => rfl
    · cases hb : s.transitionsAllowed with
      | false => exact absurd hb hta
      | true => rfl
    · cases hb : moving with
      | true => exact absurd hb hmv
      | false => rfl
    · rw [not_and_or, not_not, not_not] at hqual
      simpa only [dynamicTransitionFootQualifies] using hqual
    · simp only [refreshDynamicTransition]
      rw [if_neg h0, if_neg hgate, if_neg hqual, heq]
    · intro hq
      obtain ⟨hqL, hqR⟩ := hq
      simp only [dynamicTransitionFootQualifies] at hqL hqR
      constructor
      · intro hgt
        rw [if_neg (not_not_intro hqL), if_neg (not_not_intro hqR),
          if_pos (le_of_lt hgt)] at heq
        exact heq.symm
      · intro hgt
        rw [if_neg (not_not_intro hqL), if_neg (not_not_intro hqR),
          if_neg (not_le.mpr hgt)] at heq
        exact heq.symm

/-- Witness for C7: a concrete update with the left foot far from its lock and the right
foot without a relevant lock triggers the standing left dynamic-transition clip. -/
theorem c7_dynamic_transition_selection_witness :
    (refreshDynamicTransition sampleTransitionsSettings true false LocomotionMode.grounded
      Stance.standing 1 farFoot sampleFoot sampleTransitionsState).2 = some 1 ∧
    (refreshDynamicTransition sampleTransitionsSettings true false LocomotionMode.grounded
      Stance.standing 1 farFoot sampleFoot sampleTransitionsState).1.dynamicTransitionsFrameDelay
      = 2 := by
  have heval : (refreshDynamicTransition sampleTransitionsSettings true false
      LocomotionMode.grounded Stance.standing 1 farFoot sampleFoot
      sampleTransitionsState).2 = some 1 := by
    norm_num [refreshDynamicTransition, sampleTransitionsSettings, sampleTransitionsState,
      farFoot, sampleFoot, weightIsRelevant, zeroAnimWeightThreshold, Vec3.distSquared,
      Vec3.sizeSquared, Vec3.sub, Vec3.zero]
    simp
  exact ⟨heval,
    (c7_dynamic_transition_selection sampleTransitionsSettings true false
      LocomotionMode.grounded Stance.standing 1 farFoot sampleFoot sampleTransitionsState 1
      heval).2.2.2.2.2.2.1⟩

/-- C4: on any RefreshTurnInPlace update while stationary, grounded, in looking-direction
mode (not first person) with transitions allowed: a turn animation is queued only when
the accumulated activation delay strictly exceeds the threshold mapped from the absolute
view yaw angle, and whenever the view yaw speed is at or above its threshold (or the yaw
angle is within the angle threshold) the accumulated activation delay is reset to 0. -/
theorem c4_turn_in_place_trigger (st : TurnInPlaceGeneralSettings) (pendingUpdate : Bool)
    (stance : Stance) (viewYawAngle viewYawSpeed dt : ℚ) (s : TurnInPlaceState) :
    (∀ a : AnimRef,
      (refreshTurnInPlace st pendingUpdate false LocomotionMode.grounded
        RotationMode.lookingDirection false true stance viewYawAngle viewYawSpeed dt s).2 =
        some a →
      (refreshTurnInPlace st pendingUpdate false LocomotionMode.grounded
        RotationMode.lookingDirection false true stance viewYawAngle viewYawSpeed dt
        s).1.activationDelay > turnInPlaceActivationThreshold st viewYawAngle) ∧
    (viewYawSpeed ≥ st.viewYawSpeedThreshold ∨ |viewYawAngle| ≤ st.viewYawAngleThreshold →
      (refreshTurnInPlace st pendingUpdate false LocomotionMode.grounded
        RotationMode.lookingDirection false true stance viewYawAngle viewYawSpeed dt
        s).1.activationDelay = 0) := by
  have hguard1 : ¬ ((false : Bool) = true ∨ LocomotionMode.grounded ≠ LocomotionMode.grounded ∨
      isTurnInPlaceAllowed RotationMode.lookingDirection false = false) := by
    simp [isTurnInPlaceAllowed, RotationMode.isLookingDirection]
  have hguard2 : ¬ ((true : Bool) = false) := by simp
  constructor
  · intro a ha
    simp only [refreshTurnInPlace] at ha ⊢
    rw [if_neg hguard1] at ha ⊢
    rw [if_neg hguard2] at ha ⊢
    by_cases hreset : viewYawSpeed ≥ st.viewYawSpeedThreshold ∨
        |viewYawAngle| ≤ st.viewYawAngleThreshold
    · rw [if_pos hreset] at ha
      exact absurd ha (by simp)
    · rw [if_neg hreset] at ha ⊢
      by_cases hd : (if pendingUpdate then 0 else s.activationDelay + dt) ≤
          turnInPlaceActivationThreshold st viewYawAngle
      · rw [if_pos hd] at ha
        exact absurd ha (by simp)
      · rw [if_neg hd] at ha ⊢
        have hd2 := not_le.mp hd
        split <;> try split
        all_goals split_ifs at hd2 ⊢ <;> simpa using hd2
  · intro hc
    simp only [refreshTurnInPlace]
    rw [if_neg hguard1, if_neg hguard2, if_pos hc]

/-- Witness for C4: with a mapped activation threshold of 0, yaw angle 90 and yaw speed 0
the standing 90-degree right turn is queued and the accumulated delay exceeds the
threshold; with yaw speed 200 (above the 50 threshold) the delay is reset to 0. -/
theorem c4_turn_in_place_trigger_witness :
    (refreshTurnInPlace sampleTurnSettings false false LocomotionMode.grounded
      RotationMode.lookingDirection false true Stance.standing 90 0 (1/60)
      sampleTurnState).2 = some 12 ∧
    (refreshTurnInPlace sampleTurnSettings false false LocomotionMode.grounded
      RotationMode.lookingDirection false true Stance.standing 90 0 (1/60)
      sampleTurnState).1.activationDelay >
      turnInPlaceActivationThreshold sampleTurnSettings 90 ∧
    (refreshTurnInPlace sampleTurnSettings false false LocomotionMode.grounded
      RotationMode.lookingDirection false true Stance.standing 90 200 (1/60)
      sampleTurnState).1.activationDelay = 0 := by
  have habs : |(90 : ℚ)| = 90 := abs_of_nonneg (by norm_num)
  have heval : (refreshTurnInPlace sampleTurnSettings false false LocomotionMode.grounded
      RotationMode.lookingDirection false true Stance.standing 90 0 (1/60)
      sampleTurnState).2 = some 12 := by
    norm_num [refreshTurnInPlace, isTurnInPlaceAllowed, RotationMode.isLookingDirection,
      turnInPlaceActivationThreshold, mappedRangeClamped, lerp, clamp01, clamp,
      turnInPlaceSelectVariant, counterClockwiseRotationAngleThreshold, sampleTurnSettings,
      sampleTurnState, habs]
  refine ⟨heval, ?_, ?_⟩
  · exact (c4_turn_in_place_trigger sampleTurnSettings false Stance.standing 90 0 (1/60)
      sampleTurnState).1 12 heval
  · exact (c4_turn_in_place_trigger sampleTurnSettings false Stance.standing 90 200 (1/60)
      sampleTurnState).2 (Or.inl (by norm_num [sampleTurnSettings]))

/-- C8: if the settings reference or the character reference is null, each of the three
per-frame entry points (game-thread update, worker-safe update, post-evaluate) returns
with every state block unchanged, and post-evaluate plays no animation. -/
theorem c8_null_references_skip_refresh (fns : ExternalFns) (settings : Option Settings)
    (character : Option CharacterInputs) (w : WorkerInputs) (s : AlsState)
    (h : settings = none ∨ character = none) :
    nativeUpdateAnimation settings character s = s ∧
    nativeThreadSafeUpdateAnimation fns settings character w s = s ∧
    nativePostEvaluateAnimation settings character s = (s, []) := by
  rcases h with rfl | rfl
  · cases character <;> exact ⟨rfl, rfl, rfl⟩
  · cases settings <;> exact ⟨rfl, rfl, rfl⟩

/-- Witness for C8: with valid settings but a null character reference, a concrete state
passes through all three entry points unchanged and nothing is played. -/
theorem c8_null_references_skip_refresh_witness :
    nativeUpdateAnimation (some sampleSettings) none sampleAlsState = sampleAlsState ∧
    nativeThreadSafeUpdateAnimation sampleFns (some sampleSettings) none sampleWorkerInputs
      sampleAlsState = sampleAlsState ∧
    nativePostEvaluateAnimation (some sampleSettings) none sampleAlsState =
      (sampleAlsState, []) :=
  c8_null_references_skip_refresh sampleFns (some sampleSettings) none sampleWorkerInputs
    sampleAlsState (Or.inr rfl)

/-- Witness for C2: a concrete stationary grounded update with lock curve 1 and previous
lock amount 1/2 has a relevant lock weight and jumps the stored amount to exactly 1. -/
theorem c2_foot_lock_monotone_witness :
    (refreshFootLock sampleFeetSettings 1 false false true sampleBasedMovement idTransform
      (1/60) halfLockedFoot Vec3.zero).1.lockAmount = 1 :=
  (c2_foot_lock_monotone sampleFeetSettings 1 false false true sampleBasedMovement
      idTransform (1/60) halfLockedFoot Vec3.zero rfl
      (by norm_num [halfLockedFoot, sampleFoot, footLockNewAmount, getCurveValueClamped01,
        clamp01, clamp, weightIsRelevant, zeroAnimWeightThreshold])).1
    (by norm_num [footLockNewAmount, getCurveValueClamped01, clamp01, clamp,
      weightIsFullWeight, zeroAnimWeightThreshold, halfLockedFoot, sampleFoot])

end AlsAnim
